import Mathlib

/-!
# Verification of the SPED Fiscal analyzer core (`sped_analyzer.py`)

Shallow embedding of the ledger parsing state machine (`parse_sped_file`)
and the aggregation engine (`aggregate_records`) of the repository, with
theorems settling the specification claims.

Modelling conventions:
* Python floats are modelled as `ℚ`; the numeric literals exercised by the
  claims (rates, tolerances such as `0.001`) are exactly representable.
* String manipulation is re-implemented on `List Char` by structural
  recursion so that concrete runs reduce inside the kernel.
* Fallible file acquisition is modelled as `Except String (List String)`:
  the `.error` case corresponds to the outer `try/except` of
  `parse_sped_file` catching a file-level failure (e.g. unreadable source).
* Registers not touched by any verified claim (D100/D190 freight rows,
  E2xx/E3xx/E5xx period blocks, presence flags, XML cross-check columns,
  master registers beyond the 0000 fields copied onto documents) are not
  modelled; every modelled register follows the source line by line.
-/

unseal Rat.mul Rat.add Rat.sub Rat.inv Rat.ofScientific

namespace Sped

/-- Python `parts[n]` guarded by `len(parts) > n`, else `''`. -/
def part (ps : List String) (n : Nat) : String := (ps.get? n).getD ""

/-- First-match association-list lookup (Python `dict` lookup; insertion is
modelled by prepending, so the first hit is the most recent binding). -/
def mlookup {α : Type} : List (String × α) → String → Option α
  | [], _ => none
  | (k, v) :: rest, key => if k = key then some v else mlookup rest key

/-- Structural splitter: Python `line.split(sep)` for a one-character
separator. -/
def splitChar (sep : Char) : List Char → List Char → List String
  | [], acc => [String.mk acc.reverse]
  | c :: rest, acc =>
      if c = sep then String.mk acc.reverse :: splitChar sep rest []
      else splitChar sep rest (c :: acc)

/-- Python `s.split('|')`. -/
def pysplit (s : String) (sep : Char) : List String := splitChar sep s.toList []

/-- Python `s.strip()` (whitespace at both ends). -/
def pystrip (s : String) : String :=
  String.mk (((s.toList.dropWhile Char.isWhitespace).reverse.dropWhile
    Char.isWhitespace).reverse)

/-- Python `s.replace(c, '')` for a one-character pattern. -/
def removeChar (c : Char) (s : String) : String :=
  String.mk (s.toList.filter (fun x => x ≠ c))

/-- Python `s.replace(a, b)` for one-character pattern and replacement. -/
def replaceChar (a b : Char) (s : String) : String :=
  String.mk (s.toList.map (fun c => if c = a then b else c))

/-- Python `str.isdigit` (ASCII digits; empty string is `False`). -/
def pyIsDigit (s : String) : Bool := !s.toList.isEmpty && s.toList.all Char.isDigit

/-- Numeric value of a digit list, most significant first. -/
def natVal (cs : List Char) : Nat := cs.foldl (fun a c => a * 10 + (c.toNat - 48)) 0

/-- Exponent of a Python float literal: optional sign, nonempty digits. -/
def parseExpo (cs : List Char) : Option ℤ :=
  let p : Bool × List Char :=
    match cs with
    | '+' :: r => (false, r)
    | '-' :: r => (true, r)
    | r => (false, r)
  if !p.2.isEmpty && p.2.all Char.isDigit then
    some (if p.1 then -(natVal p.2 : ℤ) else (natVal p.2 : ℤ))
  else none

/-- Mantissa of a Python float literal: `digits`, `digits.digits`,
`digits.` or `.digits`. -/
def parseMant (cs : List Char) : Option ℚ :=
  let p := cs.span (fun c => c != '.')
  match p.2 with
  | [] => if !p.1.isEmpty && p.1.all Char.isDigit then some (natVal p.1 : ℚ) else none
  | _ :: fp =>
      if (!p.1.isEmpty || !fp.isEmpty) && p.1.all Char.isDigit && fp.all Char.isDigit then
        some ((natVal p.1 : ℚ) + (natVal fp : ℚ) / (10 : ℚ) ^ fp.length)
      else none

/-- Model of Python `float(str)` on finite decimal/scientific literals
(`inf`/`nan` and digit-grouping underscores are outside the fragment this
pipeline produces and are treated as unparseable). -/
def pyParseFloat (s : String) : Option ℚ :=
  let cs := (pystrip s).toList
  let sgn : Bool × List Char :=
    match cs with
    | '+' :: r => (false, r)
    | '-' :: r => (true, r)
    | r => (false, r)
  let sp := sgn.1
  let q := sgn.2.span (fun c => c != 'e' && c != 'E')
  match q.2 with
  | [] => (parseMant q.1).map (fun m => if sp then -m else m)
  | _ :: ex =>
      match parseMant q.1, parseExpo ex with
      | some m, some e => some ((if sp then -m else m) * (10 : ℚ) ^ e)
      | _, _ => none

/-- `parse_float_br` (source lines 152-169): Brazilian-formatted number to
float; dots removed as thousand separators, comma becomes the decimal
point; empty or unparseable input yields `0.0`. -/
def parse_float_br (value : String) : ℚ :=
  if value = "" then 0
  else
    let v := pystrip value
    if v = "" then 0
    else
      let w := replaceChar ',' '.' (removeChar '.' v)
      match pyParseFloat w with
      | some q => q
      | none => 0

/-- Round to nearest integer, ties to even (Python float formatting on the
exact rational value). -/
def roundHalfEven (q : ℚ) : ℤ :=
  let f : ℤ := q.floor
  let r : ℚ := q - (f : ℚ)
  if r < 1/2 then f
  else if 1/2 < r then f + 1
  else if f % 2 = 0 then f else f + 1

/-- Python `f'{x:.2f}'` on the exact rational value. -/
def fmt2 (q : ℚ) : String :=
  let n : ℤ := roundHalfEven (q * 100)
  let sgn := if n < 0 then "-" else ""
  let m : ℕ := n.natAbs
  sgn ++ toString (m / 100) ++ "." ++ (if m % 100 < 10 then "0" else "") ++ toString (m % 100)

/-- TIPI conformity verdict for one C170 item (source lines 701-716). -/
def ipi_conformity (tipi : List (String × ℚ)) (ncm : String) (aliq_ipi_item : ℚ) : String :=
  if aliq_ipi_item = 0 then "Conforme"
  else if tipi.isEmpty then "TIPI não carregada"
  else if ncm = "" then "NCM não encontrado"
  else
    match mlookup tipi ncm with
    | none => "NCM não encontrado na TIPI"
    | some ipi_expected =>
        if |aliq_ipi_item - ipi_expected| < 1/1000 then "Conforme"
        else "Divergente (TIPI: " ++ fmt2 ipi_expected ++ "%)"

/-! ## Data model of the parsing state machine -/

/-- The master-data fields of register 0000 that are copied onto documents
(`master['competence']`, `['company_name']`, `['company_cnpj']`,
`['company_cod_mun']`). -/
structure Master where
  competence : String := ""
  company_name : String := ""
  company_cnpj : String := ""
  company_cod_mun : String := ""
deriving DecidableEq, Repr

/-- The `current_note` dictionary built by the C100 handler. -/
structure Note where
  arquivo : String
  competencia : String
  cnpj : String
  razao : String
  uf : String
  serie : String
  numero : String
  chave : String
  data_emissao : String
  vl_doc : ℚ
  bc_icms : ℚ
  vl_icms : ℚ
  vl_ipi : ℚ
  tipo_nota : String
deriving DecidableEq, Repr

/-- An item row built by the C170 handler (`item_rec`): the parent note's
fields plus the item-level fields. -/
structure ItemRow where
  note : Note
  num_item : String
  cod_item : String
  descr : String
  cfop : String
  cst_icms : String
  cst_ipi : String
  val_item : ℚ
  bc_icms_item : ℚ
  aliq_icms_item : ℚ
  vl_icms_item : ℚ
  eff_aliq : ℚ
  aliq_ipi_item : ℚ
  vl_ipi_item : ℚ
  ncm : String
  conformidade : String
deriving DecidableEq, Repr

/-- A summary row built by the C190 handler (`out_rec`). -/
structure OutputRow where
  note : Note
  cst_icms : String
  cfop : String
  aliq_icms : ℚ
  vl_opr : ℚ
  bc_icms : ℚ
  vl_icms : ℚ
  eff_aliq : ℚ
  vl_ipi : ℚ
deriving DecidableEq, Repr

/-- An adjustment record (C195/C197/E111/E115/E116). -/
structure Adjustment where
  arquivo : String
  competencia : String
  tipo_registro : String
  codigo_ajuste : String
  descricao_ajuste : String
  valor_ajuste : ℚ
  nota : String
deriving DecidableEq, Repr

/-- The per-file result container (`SpedRecord`), restricted to the
collections the claims inspect. -/
structure SpedRecord where
  entries : List ItemRow := []
  outputs : List OutputRow := []
  imob_uso : List (ItemRow × String) := []
  adjustments : List Adjustment := []
  missing_c190 : List Note := []
  items : List ItemRow := []
  parsing_warnings : List String := []
deriving DecidableEq, Repr

/-- The mutable per-file state of the single pass. -/
structure ParseState where
  ncm_map : List (String × String) := []
  desc_map : List (String × String) := []
  current_note : Option Note := none
  current_note_key : Option String := none
  current_note_is_entry : Bool := false
  current_note_has_c190 : Bool := false
  master : Master := {}
  record : SpedRecord := {}
deriving DecidableEq, Repr

/-! ## Register handlers (each mirrors one dispatch branch of
`parse_sped_file`, source lines 538-960) -/

/-- `add_adjustment` (source lines 526-536). -/
def add_adjustment (fileName : String) (st : ParseState)
    (reg_type code descr : String) (value : ℚ) (note_id : Option String) : ParseState :=
  let adj : Adjustment :=
    { arquivo := fileName
      competencia := st.master.competence
      tipo_registro := reg_type
      codigo_ajuste := code
      descricao_ajuste := descr
      valor_ajuste := value
      nota := note_id.getD "" }
  { st with record := { st.record with adjustments := st.record.adjustments ++ [adj] } }

/-- Register 0000 (source lines 545-567): competence from DT_INI with
fallback to DT_FIN, plus the company fields copied onto documents. -/
def handle0000 (parts : List String) (st : ParseState) : ParseState :=
  if parts.length > 8 then
    let dt_ini := part parts 3
    let dt_fin := part parts 4
    let date_source :=
      if dt_ini.length = 8 ∧ pyIsDigit dt_ini then dt_ini
      else if dt_fin.length = 8 ∧ pyIsDigit dt_fin then dt_fin
      else ""
    let comp :=
      if date_source ≠ "" then
        ((date_source.toList.drop 2).take 2 ++ '/' :: (date_source.toList.drop 4).take 4).asString
      else st.master.competence
    { st with master :=
      { st.master with
        competence := comp
        company_name := pystrip (part parts 6)
        company_cnpj := pystrip (part parts 7)
        company_cod_mun := pystrip (part parts 10) } }
  else st

/-- Register 0200 (source lines 600-609): per-field catalog upsert. -/
def handle0200 (parts : List String) (st : ParseState) : ParseState :=
  let cod_item := pystrip (part parts 2)
  let descr_item := pystrip (part parts 3)
  let ncm := pystrip (part parts 8)
  if cod_item ≠ "" then
    let nm := if ncm ≠ "" then (cod_item, ncm) :: st.ncm_map else st.ncm_map
    let dm := if descr_item ≠ "" then (cod_item, descr_item) :: st.desc_map else st.desc_map
    { st with ncm_map := nm, desc_map := dm }
  else st

/-- Register C100 (source lines 611-677): flush a pending outbound note
without C190, reset the open-note state, then open a new note when the
direction indicator is recognized. -/
def handleC100 (fileName : String) (parts : List String) (st : ParseState) : ParseState :=
  let record1 :=
    match st.current_note with
    | some n =>
        if ¬ st.current_note_is_entry ∧ ¬ st.current_note_has_c190 then
          { st.record with missing_c190 := st.record.missing_c190 ++ [n] }
        else st.record
    | none => st.record
  let st1 : ParseState :=
    { st with
      record := record1
      current_note := none
      current_note_key := none
      current_note_is_entry := false
      current_note_has_c190 := false }
  if parts.length > 2 then
    let ind_oper := pystrip (part parts 2)
    if ind_oper = "0" ∨ ind_oper = "1" then
      let is_entry := ind_oper = "0"
      let serie := pystrip (part parts 7)
      let numero := pystrip (part parts 8)
      let chave := pystrip (part parts 9)
      let vl_doc :=
        if parts.length > 12 ∧ pystrip (part parts 12) ≠ "" then parse_float_br (part parts 12)
        else if parts.length > 11 ∧ pystrip (part parts 11) ≠ "" then parse_float_br (part parts 11)
        else 0
      let bc_icms :=
        if parts.length > 21 ∧ pystrip (part parts 21) ≠ "" then parse_float_br (part parts 21)
        else if parts.length > 20 ∧ pystrip (part parts 20) ≠ "" then parse_float_br (part parts 20)
        else 0
      let vl_icms :=
        if parts.length > 22 ∧ pystrip (part parts 22) ≠ "" then parse_float_br (part parts 22)
        else if parts.length > 21 ∧ pystrip (part parts 21) ≠ "" then parse_float_br (part parts 21)
        else 0
      let vl_ipi :=
        if parts.length > 25 ∧ pystrip (part parts 25) ≠ "" then parse_float_br (part parts 25)
        else if parts.length > 24 ∧ pystrip (part parts 24) ≠ "" then parse_float_br (part parts 24)
        else 0
      let note : Note :=
        { arquivo := fileName
          competencia := st1.master.competence
          cnpj := st1.master.company_cnpj
          razao := st1.master.company_name
          uf := st1.master.company_cod_mun
          serie := serie
          numero := numero
          chave := chave
          data_emissao := pystrip (part parts 10)
          vl_doc := vl_doc
          bc_icms := bc_icms
          vl_icms := vl_icms
          vl_ipi := vl_ipi
          tipo_nota := if is_entry then "Entrada" else "Saída" }
      { st1 with
        current_note := some note
        current_note_key := some chave
        current_note_is_entry := is_entry }
    else st1
  else st1

/-- CFOP set marking fixed-asset / use-and-consumption entries. -/
def imobCfops : List String :=
  ["1556", "1407", "1551", "1406", "2551", "2556", "2406", "2407"]

/-- The item row built from a C170 line for the open note (the field
extraction of source lines 683-735). -/
def mkItem (tipi : List (String × ℚ)) (ncm_map desc_map : List (String × String))
    (note : Note) (parts : List String) : ItemRow :=
  let num_item := pystrip (part parts 2)
  let cod_item := pystrip (part parts 3)
  let cfop := pystrip (part parts 11)
  let cst_icms := pystrip (part parts 10)
  let cst_ipi := pystrip (part parts 20)
  let val_item := parse_float_br (part parts 7)
  let bc_icms_item := parse_float_br (part parts 13)
  let aliq_icms_item := parse_float_br (part parts 14)
  let vl_icms_item := parse_float_br (part parts 15)
  let aliq_ipi_item := parse_float_br (part parts 23)
  let vl_ipi_item := parse_float_br (part parts 24)
  let eff_aliq := if 0 < val_item then vl_icms_item / val_item * 100 else 0
  let ncm := (mlookup ncm_map cod_item).getD ""
  let descr := (mlookup desc_map cod_item).getD ""
  let verdict := ipi_conformity tipi ncm aliq_ipi_item
  { note := note, num_item := num_item, cod_item := cod_item, descr := descr
    cfop := cfop, cst_icms := cst_icms, cst_ipi := cst_ipi
    val_item := val_item, bc_icms_item := bc_icms_item
    aliq_icms_item := aliq_icms_item, vl_icms_item := vl_icms_item
    eff_aliq := eff_aliq, aliq_ipi_item := aliq_ipi_item
    vl_ipi_item := vl_ipi_item, ncm := ncm, conformidade := verdict }

/-- The credit-situation flag of a use-and-consumption item (source lines
744-748). -/
def imobSitu (item : ItemRow) : String :=
  if 1/1000 < item.vl_icms_item ∨ 1/1000 < item.vl_ipi_item then
    "❌ Inconsistente – Crédito indevido sobre Uso e Consumo"
  else "✅ Consistente – Nenhum Crédito indevido sobre Uso e Consumo"

/-- Register C170 (source lines 678-753): item detail; requires an open
note and at least 25 fields; computes the effective rate and the TIPI
conformity verdict, appends to `items` (and `entries`/`imob_uso` for
inbound notes). -/
def handleC170 (tipi : List (String × ℚ)) (parts : List String) (st : ParseState) : ParseState :=
  match st.current_note with
  | none => st
  | some note =>
    if parts.length < 25 then st
    else
      let item := mkItem tipi st.ncm_map st.desc_map note parts
      let rec1 := { st.record with items := st.record.items ++ [item] }
      let rec2 :=
        if st.current_note_is_entry then
          let se := { rec1 with entries := rec1.entries ++ [item] }
          if removeChar '.' item.cfop ∈ imobCfops then
            { se with imob_uso := se.imob_uso ++ [(item, imobSitu item)] }
          else se
        else rec1
      { st with record := rec2 }

/-- The summary row built from a C190 line for the open outbound note (the
field extraction of source lines 757-778). -/
def mkOut (note : Note) (parts : List String) : OutputRow :=
  let cst_icms := pystrip (part parts 2)
  let cfop := pystrip (part parts 3)
  let aliq_icms := if parts.length > 4 then parse_float_br (part parts 4) else 0
  let vl_opr := if parts.length > 5 then parse_float_br (part parts 5) else 0
  let bc_icms := if parts.length > 6 then parse_float_br (part parts 6) else 0
  let vl_icms := if parts.length > 7 then parse_float_br (part parts 7) else 0
  let vl_ipi := if parts.length > 11 then parse_float_br (part parts 11) else 0
  let eff_aliq := if 0 < bc_icms then vl_icms / bc_icms * 100 else 0
  { note := note, cst_icms := cst_icms, cfop := cfop, aliq_icms := aliq_icms
    vl_opr := vl_opr, bc_icms := bc_icms, vl_icms := vl_icms
    eff_aliq := eff_aliq, vl_ipi := vl_ipi }

/-- Register C190 (source lines 754-788): output summary; requires an open
outbound note, marks it as summarized and appends an `OutputRow`. -/
def handleC190 (parts : List String) (st : ParseState) : ParseState :=
  match st.current_note with
  | none => st
  | some note =>
    if st.current_note_is_entry then st
    else
      let st1 := { st with current_note_has_c190 := true }
      let o := mkOut note parts
      { st1 with record := { st1.record with outputs := st1.record.outputs ++ [o] } }

/-- Register C195 (source lines 840-853): per-document observation,
appended only when a note is open and the text is non-empty. -/
def handleC195 (fileName : String) (parts : List String) (st : ParseState) : ParseState :=
  match st.current_note with
  | none => st
  | some _ =>
    let txt := pystrip (part parts 3)
    if txt ≠ "" then
      let adj : Adjustment :=
        { arquivo := fileName
          competencia := st.master.competence
          tipo_registro := "C195"
          codigo_ajuste := ""
          descricao_ajuste := txt
          valor_ajuste := 0
          nota := st.current_note_key.getD "" }
      { st with record := { st.record with adjustments := st.record.adjustments ++ [adj] } }
    else st

/-- Register C197 (source lines 854-864): per-document adjustment, dropped
when no note is open; value is the last positive number in the tail
fields. -/
def handleC197 (fileName : String) (parts : List String) (st : ParseState) : ParseState :=
  match st.current_note with
  | none => st
  | some _ =>
    let code := pystrip (part parts 2)
    let descr := pystrip (part parts 3)
    let adj_value := (parts.drop 4).foldl
      (fun acc item => let v := parse_float_br item; if 0 < v then v else acc) 0
    add_adjustment fileName st "C197" code descr adj_value st.current_note_key

/-- Register E111 (source lines 866-870): period-level adjustment, always
recorded. -/
def handleE111 (fileName : String) (parts : List String) (st : ParseState) : ParseState :=
  let code := pystrip (part parts 2)
  let descr := pystrip (part parts 3)
  let value := if parts.length > 4 then parse_float_br (part parts 4) else 0
  add_adjustment fileName st "E111" code descr value none

/-- Register E115 (source lines 871-875): period-level adjustment, always
recorded. -/
def handleE115 (fileName : String) (parts : List String) (st : ParseState) : ParseState :=
  let code := pystrip (part parts 2)
  let value := if parts.length > 3 then parse_float_br (part parts 3) else 0
  let descr := pystrip (part parts 4)
  add_adjustment fileName st "E115" code descr value none

/-- Register E116 (source lines 876-883): period-level adjustment, always
recorded. -/
def handleE116 (fileName : String) (parts : List String) (st : ParseState) : ParseState :=
  let cod_or := pystrip (part parts 2)
  let value := if parts.length > 3 then parse_float_br (part parts 3) else 0
  let cod_rec := pystrip (part parts 5)
  let txt := pystrip (part parts 9)
  let descr := pystrip (cod_or ++ " " ++ cod_rec ++ " " ++ txt)
  add_adjustment fileName st "E116" (if cod_rec ≠ "" then cod_rec else cod_or) descr value none

/-- One iteration of the main loop (source lines 538-960): skip blank and
separator-free lines, split on `'|'`, dispatch on the register tag. -/
def processLine (fileName : String) (tipi : List (String × ℚ))
    (st : ParseState) (raw : String) : ParseState :=
  let line := pystrip raw
  if line = "" ∨ ¬ line.toList.contains '|' then st
  else
    let parts := pysplit line '|'
    let tag := part parts 1
    if tag = "0000" then handle0000 parts st
    else if tag = "0200" then handle0200 parts st
    else if tag = "C100" then handleC100 fileName parts st
    else if tag = "C170" then handleC170 tipi parts st
    else if tag = "C190" then handleC190 parts st
    else if tag = "C195" then handleC195 fileName parts st
    else if tag = "C197" then handleC197 fileName parts st
    else if tag = "E111" then handleE111 fileName parts st
    else if tag = "E115" then handleE115 fileName parts st
    else if tag = "E116" then handleE116 fileName parts st
    else st

/-- End-of-file flush (source lines 963-965): a still-open outbound note
without C190 is recorded as a missing-summary anomaly. -/
def finalize (st : ParseState) : ParseState :=
  match st.current_note with
  | some n =>
      if ¬ st.current_note_is_entry ∧ ¬ st.current_note_has_c190 then
        { st with record := { st.record with missing_c190 := st.record.missing_c190 ++ [n] } }
      else st
  | none => st

/-- The state reached after folding the dispatch loop over a line
sequence. -/
def runLines (fileName : String) (tipi : List (String × ℚ)) (lines : List String) : ParseState :=
  lines.foldl (processLine fileName tipi) {}

/-- The single pass of `parse_sped_file` over an already-acquired decoded
line sequence. -/
def parse_sped_lines (fileName : String) (tipi : List (String × ℚ))
    (lines : List String) : SpedRecord :=
  (finalize (runLines fileName tipi lines)).record

/-- `parse_sped_file` with its outer `try/except` (source lines 475 and
987-989): a file-level failure while acquiring the line sequence is
recorded as a warning on an otherwise empty result. -/
def parse_sped_file (fileName : String) (tipi : List (String × ℚ))
    (input : Except String (List String)) : SpedRecord :=
  match input with
  | .ok lines => parse_sped_lines fileName tipi lines
  | .error exc => { parsing_warnings := ["Erro ao processar " ++ fileName ++ ": " ++ exc] }

/-! ## Aggregation engine (`aggregate_records`, source lines 996-1564)

The engine works on pandas DataFrames built from lists of loosely-typed
row dictionaries; rows are modelled as association lists over `AVal`, and
column presence (`c in df.columns`) as "some row carries the key".
`pd.to_numeric(..., errors='coerce').fillna(0.0)` is modelled by reading a
cell as `ℚ` with default `0` (the pipeline only stores numbers in numeric
columns).  Group keys are emitted in first-occurrence order (pandas sorts
group keys); no verified claim depends on row order. -/

/-- A cell value of a row dictionary. -/
inductive AVal
  | s (v : String)
  | q (v : ℚ)
deriving DecidableEq, Repr

/-- A row dictionary. -/
abbrev AggRow := List (String × AVal)

/-- The per-file collections handed to `aggregate_records`. -/
structure AggRecord where
  entries : List AggRow := []
  outputs : List AggRow := []
  items : List AggRow := []
  imob_uso : List AggRow := []
  cte : List AggRow := []
  adjustments : List AggRow := []
  st_blocks : List AggRow := []
  difal_blocks : List AggRow := []
  ipi_blocks : List AggRow := []
  missing_c190 : List AggRow := []
  master_data : AggRow := []
  block_flags : AggRow := []
deriving DecidableEq, Repr

/-- The output dictionary of sheet name to table. -/
abbrev Sheets := List (String × List AggRow)

/-- Numeric read of a cell (`pd.to_numeric(...).fillna(0.0)` view). -/
def getNum (row : AggRow) (c : String) : ℚ :=
  match mlookup row c with
  | some (.q v) => v
  | _ => 0

/-- String read of a cell (with Python's `row.get(col, '')` default). -/
def getStr (row : AggRow) (c : String) : String :=
  match mlookup row c with
  | some (.s v) => v
  | _ => ""

/-- `c in df.columns` for a frame built from row dictionaries. -/
def hasCol (rows : List AggRow) (c : String) : Bool :=
  rows.any (fun r => (mlookup r c).isSome)

/-- `df.empty`: no rows, or rows but no columns. -/
def dfEmpty (rows : List AggRow) : Bool :=
  rows.isEmpty || rows.all (fun r => r.isEmpty)

/-- The group key of a row: the raw cells of the grouping columns. -/
def keyOf (cols : List String) (row : AggRow) : List (Option AVal) :=
  cols.map (mlookup row)

/-- Deduplication keeping first occurrences (group keys in order of first
appearance). -/
def dedupFirst {α : Type} [DecidableEq α] : List α → List α
  | [] => []
  | a :: l => a :: (dedupFirst l).filter (fun x => decide (x ≠ a))

/-- The distinct group keys of a frame. -/
def groupKeys (cols : List String) (rows : List AggRow) : List (List (Option AVal)) :=
  dedupFirst (rows.map (keyOf cols))

/-- Sum of a numeric column over the rows of one group. -/
def sumOver (rows : List AggRow) (cols : List String) (k : List (Option AVal)) (c : String) : ℚ :=
  ((rows.filter (fun r => decide (keyOf cols r = k))).map (fun r => getNum r c)).sum

/-- Reconstruct the grouping columns of a result row from a group key. -/
def mkKeyRow (cols : List String) (k : List (Option AVal)) : AggRow :=
  (cols.zip k).filterMap (fun p => p.2.map (fun v => (p.1, v)))

/-- One result row of `groupby(gcols).agg({c: 'sum' for c in scols})`. -/
def groupRow (gcols : List String) (k : List (Option AVal)) (scols : List String)
    (rows : List AggRow) : AggRow :=
  mkKeyRow gcols k ++ scols.map (fun c => (c, AVal.q (sumOver rows gcols k c)))

/-- `df.groupby(gcols).agg({c: 'sum' for c in scols}).reset_index()`. -/
def groupBySum (gcols scols : List String) (rows : List AggRow) : List AggRow :=
  (groupKeys gcols rows).map (fun k => groupRow gcols k scols rows)

/-- `df.rename(columns=m)`. -/
def renameCols (m : List (String × String)) (rows : List AggRow) : List AggRow :=
  rows.map (fun row => row.map (fun p => ((mlookup m p.1).getD p.1, p.2)))

/-- In-place numeric coercion of the present columns among `cols`
(`df[col] = pd.to_numeric(df[col], errors='coerce').fillna(0.0)`). -/
def coerceNumCols (cols : List String) (rows : List AggRow) : List AggRow :=
  let present := cols.filter (fun c => hasCol rows c)
  rows.map (fun row =>
    row.filter (fun p => !(present.contains p.1)) ++
      present.map (fun c => (c, AVal.q (getNum row c))))

/-- Conditional sheet insertion (`if cond: sheets[name] = tbl`). -/
def optSheet (cond : Prop) [Decidable cond] (name : String) (tbl : List AggRow) : Sheets :=
  if cond then [(name, tbl)] else []

/-- Dictionary update `sheets[name] = tbl` (replace in place, else append). -/
def setSheet (sheets : Sheets) (name : String) (tbl : List AggRow) : Sheets :=
  if (mlookup sheets name).isSome then
    sheets.map (fun p => if p.1 = name then (name, tbl) else p)
  else sheets ++ [(name, tbl)]

/-- Stable insertion into a sorted list. -/
def insertSorted {α : Type} (le : α → α → Bool) (x : α) : List α → List α
  | [] => [x]
  | y :: ys => if le x y then x :: y :: ys else y :: insertSorted le x ys

/-- Stable sort (models `sort_values`; ties keep input order). -/
def insertionSort {α : Type} (le : α → α → Bool) : List α → List α
  | [] => []
  | x :: xs => insertSorted le x (insertionSort le xs)

/-- Numeric columns of the item frame (source line 1030). -/
def itemsNumericCols : List String :=
  ["Valor Total Item", "BC ICMS Item", "Valor ICMS Item", "Valor IPI Item"]

/-- Rename map for item/entry summaries (source lines 1045-1050). -/
def itemsRenameMap : List (String × String) :=
  [("Valor Total Item", "Valor Contábil"), ("BC ICMS Item", "BC ICMS"),
   ("Valor ICMS Item", "ICMS"), ("Valor IPI Item", "IPI")]

/-- The state summary block (source lines 1090-1099): group by whichever of
the candidate columns are present; the sheet is only omitted when none
is. -/
def ufCfopSheet (dfi : List AggRow) : Sheets :=
  let cols := ["Competência", "CNPJ", "Razão Social", "UF", "CFOP"].filter (fun c => hasCol dfi c)
  optSheet (cols ≠ []) "Resumo UF-CFOP"
    (renameCols itemsRenameMap (groupBySum cols (itemsNumericCols.filter (fun c => hasCol dfi c)) dfi))

/-- `sort_values(by='Valor Contábil', ascending=False)`. -/
def sortByValDesc (rows : List AggRow) : List AggRow :=
  insertionSort (fun a b => decide (getNum b "Valor Contábil" ≤ getNum a "Valor Contábil")) rows

/-- The item-frame sheet block (source lines 1028-1110). -/
def itemsSheets (df_items0 : List AggRow) : Sheets :=
  if dfEmpty df_items0 then [] else
  let dfi := coerceNumCols itemsNumericCols df_items0
  let scols := itemsNumericCols.filter (fun c => hasCol dfi c)
  let g1 := ["Tipo Nota", "Competência", "CNPJ", "Razão Social", "NCM Item", "CFOP"].filter
    (fun c => hasCol dfi c)
  let s1 := optSheet (g1 ≠ []) "Resumo Itens por NCM-CFOP"
    (renameCols itemsRenameMap (groupBySum g1 scols dfi))
  let g2 := ["Tipo Nota", "Competência", "CNPJ", "Razão Social", "CFOP", "NCM Item", "CST ICMS"].filter
    (fun c => hasCol dfi c)
  let s2 := optSheet (g2 ≠ []) "Resumo CFOP-NCM-CST"
    (renameCols itemsRenameMap (groupBySum g2 scols dfi))
  let g3 := ["Competência", "CNPJ", "Razão Social", "Descrição do Produto", "NCM Item", "CFOP"].filter
    (fun c => hasCol dfi c)
  let rank0 := renameCols itemsRenameMap (groupBySum g3 scols dfi)
  let rank := if hasCol rank0 "Valor Contábil" then sortByValDesc rank0 else rank0
  let s3 := optSheet (g3 ≠ []) "Ranking Produtos" rank
  let s5cols := ["Competência", "CNPJ", "Razão Social", "NCM Item"].filter (fun c => hasCol dfi c)
  let s5 := optSheet (s5cols ≠ []) "Resumo NCM"
    (renameCols itemsRenameMap (groupBySum s5cols scols dfi))
  [("Detalhes Itens", dfi)] ++ s1 ++ s2 ++ s3 ++ ufCfopSheet dfi ++ s5

/-- Numeric columns of the entry frame (source line 1115). -/
def entriesSumCols : List String :=
  ["Valor Total Item", "BC ICMS Item", "Valor ICMS Item", "Valor IPI Item"]

/-- The entry-frame sheet block (source lines 1111-1152). -/
def entriesSheets (df_entries : List AggRow) : Sheets :=
  if dfEmpty df_entries then [] else
  if hasCol df_entries "CFOP" then
    let dfe := coerceNumCols entriesSumCols df_entries
    let g := ["Competência", "CNPJ", "Razão Social", "CFOP"].filter (fun c => hasCol dfe c)
    let df_cfop :=
      if g ≠ [] then groupBySum g entriesSumCols dfe
      else groupBySum ["Competência", "CFOP"] entriesSumCols dfe
    let base := [("Detalhes Entradas", dfe),
      ("Resumo Entradas por CFOP", renameCols itemsRenameMap df_cfop)]
    if hasCol dfe "NCM Item" then
      let g2 := ["Competência", "CNPJ", "Razão Social", "NCM Item", "CFOP"].filter
        (fun c => hasCol dfe c)
      let df2 :=
        if g2 ≠ [] then groupBySum g2 entriesSumCols dfe
        else groupBySum ["Competência", "NCM Item", "CFOP"] entriesSumCols dfe
      base ++ [("Resumo Entradas por NCM-CFOP", renameCols itemsRenameMap df2)]
    else base
  else [("Detalhes Entradas", df_entries)]

/-- Numeric columns of the output frame (source line 1156). -/
def outputsSumCols : List String :=
  ["Valor Total Nota", "BC ICMS", "Valor ICMS", "Valor IPI Nota"]

/-- Rename map for the output summary (source lines 1178-1183). -/
def outputsRenameMap : List (String × String) :=
  [("Valor Total Nota", "Valor Contábil"), ("BC ICMS", "BC ICMS"),
   ("Valor ICMS", "ICMS"), ("Valor IPI Nota", "IPI")]

/-- The output-frame sheet block (source lines 1153-1184). -/
def outputsSheets (df_outputs : List AggRow) : Sheets :=
  if dfEmpty df_outputs then [] else
  let dfo := coerceNumCols outputsSumCols df_outputs
  let g := ["Competência", "CNPJ", "Razão Social", "CFOP", "CST ICMS"].filter
    (fun c => hasCol dfo c)
  let df_saidas :=
    if g ≠ [] then groupBySum g outputsSumCols dfo
    else groupBySum ["Competência", "CFOP", "CST ICMS"] outputsSumCols dfo
  [("Detalhes Saídas", dfo), ("Resumo Saídas por CFOP-CST", renameCols outputsRenameMap df_saidas)]

/-- Numeric columns of the freight frame (source line 1190). -/
def cteSumCols : List String :=
  ["Valor Operação CT-e", "BC ICMS CT-e (D190)", "Valor ICMS CT-e (D190)"]

/-- Rename map for the freight summary (source lines 1210-1214). -/
def cteRenameMap : List (String × String) :=
  [("Valor Operação CT-e", "Valor Contábil"), ("BC ICMS CT-e (D190)", "BC ICMS"),
   ("Valor ICMS CT-e (D190)", "ICMS")]

/-- The freight-frame sheet block (source lines 1187-1215). -/
def cteSheets (df_cte : List AggRow) : Sheets :=
  if dfEmpty df_cte then [] else
  let dfc := coerceNumCols cteSumCols df_cte
  let g := ["Competência", "CNPJ", "Razão Social", "CFOP CT-e", "CST CT-e"].filter
    (fun c => hasCol dfc c)
  let s :=
    if g ≠ [] then groupBySum g cteSumCols dfc
    else groupBySum ["Competência", "CFOP CT-e", "CST CT-e"] cteSumCols dfc
  [("Detalhes CT-e", dfc), ("Resumo CT-e por CFOP-CST", renameCols cteRenameMap s)]

/-- `_clean_cfop` (source lines 1250-1251). -/
def clean_cfop (s : String) : String := removeChar '.' s

/-- Revenue CFOP codes (source lines 1254-1256). -/
def revenueCfops : List String := ["5101", "5102", "5403", "5405", "6101", "6102", "6403"]

/-- Explicit other-output CFOP codes (source line 1259). -/
def otherCfopExplicit : List String := ["5949", "6949", "6910", "5910"]

/-- Cost CFOP codes (source lines 1262-1264). -/
def costCfops : List String := ["2102", "2101", "2403", "2405", "1102", "1101", "1403", "1405"]

/-- Expense CFOP codes (source lines 1266-1268). -/
def expenseCfops : List String := ["2551", "1551", "1933"]

/-- `revenue_test` (source lines 1332-1333). -/
def revenueTest (c : String) : Bool := revenueCfops.contains c

/-- `other_test` (source lines 1338-1340): explicit codes or the 59/69
two-digit families. -/
def otherTest (c : String) : Bool :=
  otherCfopExplicit.contains c ||
    ("59".toList.isPrefixOf c.toList || "69".toList.isPrefixOf c.toList)

/-- `cost_test` (source lines 1371-1372). -/
def costTest (c : String) : Bool := costCfops.contains c

/-- `expense_test` (source lines 1377-1378). -/
def expenseTest (c : String) : Bool := expenseCfops.contains c

/-- Derive a standard column from the first present candidate, default 0
(source lines 1308-1330 and 1349-1369). -/
def deriveCol (rows : List AggRow) (target : String) (cands : List String) : List AggRow :=
  if hasCol rows target then rows
  else
    match cands.find? (fun c => hasCol rows c) with
    | some c => rows.map (fun r => r ++ [(target, AVal.q (getNum r c))])
    | none => rows.map (fun r => r ++ [(target, AVal.q 0)])

/-- `_build_category` (source lines 1272-1299). -/
def build_category (df : List AggRow) (name : String) (test : String → Bool) :
    Option (List AggRow) :=
  if dfEmpty df then none else
  let sub := df.filter (fun r => test (clean_cfop (getStr r "CFOP")))
  if sub.isEmpty then none else
  let sub2 := coerceNumCols ["Valor Contábil", "ICMS", "IPI"] sub
  let g0 := ["Competência", "CNPJ", "Razão Social"].filter (fun c => hasCol sub2 c)
  let g := if g0.isEmpty then ["Competência"] else g0
  let grouped := groupBySum g ["Valor Contábil", "ICMS", "IPI"] sub2
  some (grouped.map (fun r =>
    r ++ [("Categoria", AVal.s name),
          ("Total Impostos", AVal.q (getNum r "ICMS" + getNum r "IPI"))]))

/-- Category sort rank (source lines 1395-1396). -/
def catIdx (s : String) : Nat :=
  if s = "Receita" then 0
  else if s = "Outras Saídas" then 1
  else if s = "Custos" then 2
  else if s = "Despesas" then 3
  else 4

/-- Sort key of a DRE row over the present identifier columns. -/
def dreSortKey (cols : List String) (r : AggRow) : List String :=
  cols.map (fun c => if c = "Categoria" then toString (catIdx (getStr r c)) else getStr r c)

/-- Lexicographic comparison of string lists. -/
def lexLe : List String → List String → Bool
  | [], _ => true
  | _ :: _, [] => false
  | x :: xs, y :: ys => if x = y then lexLe xs ys else decide (x < y)

/-- The KPI sheet computed from the DRE (source lines 1412-1464). -/
def kpiSheet (df_dre : List AggRow) : Sheets :=
  if dfEmpty df_dre then [] else
  let g0 := ["Competência", "CNPJ", "Razão Social"].filter (fun c => hasCol df_dre c)
  let g := if g0.isEmpty then ["Competência"] else g0
  let kpi_rows := (groupKeys g df_dre).map (fun k =>
    let grp := df_dre.filter (fun r => decide (keyOf g r = k))
    let total_rev := ((grp.filter (fun r => getStr r "Categoria" = "Receita")).map
      (fun r => getNum r "Valor Contábil")).sum
    let total_cost := ((grp.filter (fun r => getStr r "Categoria" = "Custos")).map
      (fun r => getNum r "Valor Contábil")).sum
    let total_taxes := ((grp.filter (fun r => getStr r "Categoria" = "Receita")).map
      (fun r => getNum r "Total Impostos")).sum
    let tax_burden := if 0 < total_rev then total_taxes / total_rev else 0
    mkKeyRow g k ++
      [("Receita", AVal.q total_rev), ("Custos", AVal.q total_cost),
       ("Margem Bruta", AVal.q (total_rev - total_cost)),
       ("Total Impostos", AVal.q total_taxes),
       ("Carga Tributária Efetiva (%)", AVal.q (tax_burden * 100))])
  [("Indicadores Fiscais", kpi_rows)]

/-- The DRE and KPI sheet block (source lines 1246-1464). -/
def dreSheets (df_entries df_outputs : List AggRow) : Sheets :=
  let out_cats : List (Option (List AggRow)) :=
    if ¬ dfEmpty df_outputs then
      let d1 := deriveCol df_outputs "Valor Contábil" ["Valor Total Nota", "Valor Operação"]
      let d2 := deriveCol d1 "ICMS" ["Valor ICMS", "Valor ICMS Nota"]
      let d3 := deriveCol d2 "IPI" ["Valor IPI Nota", "Valor IPI (C190)"]
      [build_category d3 "Receita" revenueTest, build_category d3 "Outras Saídas" otherTest]
    else []
  let in_cats : List (Option (List AggRow)) :=
    if ¬ dfEmpty df_entries then
      let d1 := deriveCol df_entries "Valor Contábil" ["Valor Total Item"]
      let d2 := deriveCol d1 "ICMS" ["Valor ICMS Item", "Valor ICMS Nota"]
      let d3 := deriveCol d2 "IPI" ["Valor IPI Item", "Valor IPI Nota"]
      [build_category d3 "Custos" costTest, build_category d3 "Despesas" expenseTest]
    else []
  let cats := (out_cats ++ in_cats).filterMap id
  if cats.isEmpty then [] else
  let df_dre0 := cats.flatten
  let dcols := ["Competência", "CNPJ", "Razão Social", "Categoria", "Valor Contábil",
    "ICMS", "IPI", "Total Impostos"].filter (fun c => hasCol df_dre0 c)
  let df_dre1 := df_dre0.map (fun r => dcols.filterMap (fun c => (mlookup r c).map (fun v => (c, v))))
  let scols := ["Competência", "CNPJ", "Razão Social", "Categoria"].filter
    (fun c => hasCol df_dre1 c)
  let df_dre := insertionSort (fun a b => lexLe (dreSortKey scols a) (dreSortKey scols b)) df_dre1
  [("DRE Fiscal", df_dre)] ++ kpiSheet df_dre

/-- Balance grouping key columns (source lines 1476 and 1489). -/
def balanceGroupCols : List String := ["CNPJ", "Competência"]

/-- Summed credit-side columns (source lines 1476-1480). -/
def creditSumCols : List String := ["BC ICMS Item", "Valor ICMS Item", "Valor IPI Item"]

/-- Summed debit-side columns (source lines 1489-1493). -/
def debitSumCols : List String := ["BC ICMS", "Valor ICMS", "Valor IPI Nota"]

/-- The balance key of a grouped row. -/
def balanceKey (r : AggRow) : List (Option AVal) := keyOf balanceGroupCols r

/-- First row with the given balance key (the unique-key side of
`pd.merge(..., how='outer')`); an absent key yields the empty row, whose
numeric reads are all zero (`fillna(0.0)`). -/
def lookupRow : List AggRow → List (Option AVal) → AggRow
  | [], _ => []
  | r :: rest, k => if balanceKey r = k then r else lookupRow rest k

/-- Tax-balance netting rows (source lines 1468-1514): group each side by
{CNPJ, Competência}, outer-join, and carry recoverable, payable and
signed differences per tax. -/
def balance_rows (df_entries df_outputs : List AggRow) : List AggRow :=
  let credit_sum :=
    if ¬ dfEmpty df_entries then groupBySum balanceGroupCols creditSumCols df_entries else []
  let debit_sum :=
    if ¬ dfEmpty df_outputs then groupBySum balanceGroupCols debitSumCols df_outputs else []
  let keys := dedupFirst (credit_sum.map balanceKey ++ debit_sum.map balanceKey)
  keys.map (fun k =>
    let crow := lookupRow credit_sum k
    let drow := lookupRow debit_sum k
    let icms_cred := getNum crow "Valor ICMS Item"
    let icms_deb := getNum drow "Valor ICMS"
    let ipi_cred := getNum crow "Valor IPI Item"
    let ipi_deb := getNum drow "Valor IPI Nota"
    mkKeyRow balanceGroupCols k ++
      [("ICMS a Recuperar (Entradas)", AVal.q icms_cred),
       ("ICMS a Pagar (Saídas)", AVal.q icms_deb),
       ("Saldo ICMS (Cred - Deb)", AVal.q (icms_cred - icms_deb)),
       ("IPI a Recuperar (Entradas)", AVal.q ipi_cred),
       ("IPI a Pagar (Saídas)", AVal.q ipi_deb),
       ("Saldo IPI (Cred - Deb)", AVal.q (ipi_cred - ipi_deb))])

/-- Net payable of one balance row (source lines 1528-1536): payable minus
recoverable across both taxes, clamped at zero. -/
def netPayable (r : AggRow) : ℚ :=
  let x := (getNum r "ICMS a Pagar (Saídas)" - getNum r "ICMS a Recuperar (Entradas)") +
    (getNum r "IPI a Pagar (Saídas)" - getNum r "IPI a Recuperar (Entradas)")
  if 0 < x then x else 0

/-- KPI enrichment with the net-payable over revenue percentage (source
lines 1518-1561). -/
def kpiUpdate (sheets : Sheets) : Sheets :=
  let df_kpi := (mlookup sheets "Indicadores Fiscais").getD []
  let df_balance := (mlookup sheets "Saldo Impostos").getD []
  let bk0 := ["Competência", "CNPJ", "Razão Social"].filter (fun c => hasCol df_balance c)
  let bk := if bk0.isEmpty then ["Competência"] else bk0
  let df_kpi2 := df_kpi.map (fun r =>
    let receita := getNum r "Receita"
    let np := ((df_balance.filter (fun b => decide (bk.map (getStr b) = bk.map (getStr r)))).map
      netPayable).sum
    let pct := if 0 < receita then np / receita * 100 else 0
    r ++ [("Imposto/Faturamento (%)", AVal.q pct)])
  setSheet sheets "Indicadores Fiscais" df_kpi2

/-- `aggregate_records` (source lines 996-1564).  The sheet dictionary is
assembled unconditionally, but the single `return sheets` sits inside the
branch requiring non-empty entries or outputs; otherwise the function
falls off the end and returns `None`. -/
def aggregate_records (records : List AggRecord) : Option Sheets :=
  let df_entries := (records.map (fun r => r.entries)).flatten
  let df_outputs := (records.map (fun r => r.outputs)).flatten
  let df_items := (records.map (fun r => r.items)).flatten
  let df_imob := (records.map (fun r => r.imob_uso)).flatten
  let df_cte := (records.map (fun r => r.cte)).flatten
  let df_adjustments := (records.map (fun r => r.adjustments)).flatten
  let df_st_blocks := (records.map (fun r => r.st_blocks)).flatten
  let df_difal_blocks := (records.map (fun r => r.difal_blocks)).flatten
  let df_ipi_blocks := (records.map (fun r => r.ipi_blocks)).flatten
  let df_missing := (records.map (fun r => r.missing_c190)).flatten
  let df_master := records.map (fun r => r.master_data)
  let df_flags := records.map (fun r => r.block_flags)
  let sheets :=
    itemsSheets df_items ++
    entriesSheets df_entries ++
    outputsSheets df_outputs ++
    optSheet (¬ dfEmpty df_imob) "Entradas Imob_UsoConsumo" df_imob ++
    cteSheets df_cte ++
    optSheet (¬ dfEmpty df_adjustments) "Ajustes" df_adjustments ++
    optSheet (¬ dfEmpty df_st_blocks) "Resumo E200_ICMS_ST" df_st_blocks ++
    optSheet (¬ dfEmpty df_difal_blocks) "Resumo E300_DIFAL" df_difal_blocks ++
    optSheet (¬ dfEmpty df_ipi_blocks) "Resumo E500_IPI" df_ipi_blocks ++
    optSheet (¬ dfEmpty df_missing) "Notas Saída sem C190" df_missing ++
    optSheet (¬ dfEmpty df_master) "Dados Mestres" df_master ++
    optSheet (¬ dfEmpty df_flags) "Presença Blocos" df_flags ++
    dreSheets df_entries df_outputs
  if ¬ dfEmpty df_entries ∨ ¬ dfEmpty df_outputs then
    let brows := balance_rows df_entries df_outputs
    let sheets2 := sheets ++ optSheet (¬ brows.isEmpty) "Saldo Impostos" brows
    let sheets3 :=
      if (mlookup sheets2 "Indicadores Fiscais").isSome ∧
         (mlookup sheets2 "Saldo Impostos").isSome then kpiUpdate sheets2
      else sheets2
    some sheets3
  else none

/-! ## Derived definitions used to state the claims -/

/-- The register tag of a raw input line, as the dispatch loop computes
it. -/
def tagOf (raw : String) : String := part (pysplit (pystrip raw) '|') 1

/-- Effective-rate contract of an item row: tax over item value when the
value is positive, zero otherwise. -/
def itemEffOk (r : ItemRow) : Prop :=
  r.eff_aliq = if 0 < r.val_item then r.vl_icms_item / r.val_item * 100 else 0

/-- Effective-rate contract of an output summary row: tax over tax base
when the base is positive, zero otherwise. -/
def outEffOk (o : OutputRow) : Prop :=
  o.eff_aliq = if 0 < o.bc_icms then o.vl_icms / o.bc_icms * 100 else 0

/-- Invariant of the single pass: no warnings are ever produced by the
loop, the open-note key always is the open note's access key, and every
emitted row satisfies its effective-rate contract. -/
def StInv (st : ParseState) : Prop :=
  st.record.parsing_warnings = [] ∧
  (∀ n, st.current_note = some n → st.current_note_key = some n.chave) ∧
  (∀ r ∈ st.record.items, itemEffOk r) ∧
  (∀ o ∈ st.record.outputs, outEffOk o)

/-- The outer-join key list of the tax-balance netting: the distinct
{CNPJ, Competência} keys of either side, credit side first. -/
def balanceKeysSpec (df_entries df_outputs : List AggRow) : List (List (Option AVal)) :=
  dedupFirst
    ((if ¬ dfEmpty df_entries then groupKeys balanceGroupCols df_entries else []) ++
     (if ¬ dfEmpty df_outputs then groupKeys balanceGroupCols df_outputs else []))

/-- The balance row the netting must produce for one join key: each cell a
group sum over the raw rows of the corresponding side (zero when the side
has no row with that key), the signed saldo fields being recoverable minus
payable. -/
def balanceRowSpec (df_entries df_outputs : List AggRow) (k : List (Option AVal)) : AggRow :=
  let icms_cred := sumOver df_entries balanceGroupCols k "Valor ICMS Item"
  let icms_deb := sumOver df_outputs balanceGroupCols k "Valor ICMS"
  let ipi_cred := sumOver df_entries balanceGroupCols k "Valor IPI Item"
  let ipi_deb := sumOver df_outputs balanceGroupCols k "Valor IPI Nota"
  mkKeyRow balanceGroupCols k ++
    [("ICMS a Recuperar (Entradas)", AVal.q icms_cred),
     ("ICMS a Pagar (Saídas)", AVal.q icms_deb),
     ("Saldo ICMS (Cred - Deb)", AVal.q (icms_cred - icms_deb)),
     ("IPI a Recuperar (Entradas)", AVal.q ipi_cred),
     ("IPI a Pagar (Saídas)", AVal.q ipi_deb),
     ("Saldo IPI (Cred - Deb)", AVal.q (ipi_cred - ipi_deb))]

/-! ## Concrete inputs exercising the claims -/

/-- Rate table of the worked example: classification 12345678 at 10%. -/
def tipiDemo : List (String × ℚ) := [("12345678", 10)]

/-- Worked example for the conformity verdict: catalog P001 → 12345678,
one item declaring 10% and one declaring 7%. -/
def demoLinesC1 : List String :=
  [ "|0000|017|0|01012024|31012024|EMPRESA DEMO|12345678000199|||123456789|3550308|||||1|"
  , "|0200|P001|PRODUTO TESTE|789|X|UN|00|12345678|"
  , "|C100|0|1|55|00|001|1|1|0000000003|CHAVE3|01012024|1000,00|"
  , "|C170|1|P001|COMPL|1|UN|100,00|0|0|000|1102|NAT|100,00|18,00|18,00|0|0|0|0|50|E|100,00|10,00|10,00|"
  , "|C170|2|P001|COMPL|1|UN|100,00|0|0|000|1102|NAT|100,00|18,00|15,00|0|0|0|0|50|E|100,00|7,00|10,00|"
  ]

/-- Worked example for missing-summary detection: an outbound header
immediately followed by another outbound header, whose C190 then
arrives. -/
def demoLinesC2 : List String :=
  [ "|C100|1|1|55|00|001|1|0000000001|CHAVE1|01012024|100,00|"
  , "|C100|1|1|55|00|001|2|0000000002|CHAVE2|02012024|200,00|"
  , "|C190|000|5102|18,00|100,00|100,00|18,00|"
  ]

/-- Worked example for effective rates: an item with tax 15 over value 100
and an item with zero value. -/
def demoLinesC3 : List String :=
  [ "|C100|0|1|55|00|001|1|0000000004|CHAVE4|01012024|1000,00|"
  , "|C170|1|P001|COMPL|1|UN|100,00|0|0|000|1102|NAT|100,00|18,00|15,00|0|0|0|0|50|E|100,00|0,00|0,00|"
  , "|C170|2|P001|COMPL|1|UN|0,00|0|0|000|1102|NAT|0,00|18,00|5,00|0|0|0|0|50|E|0,00|0,00|0,00|"
  ]

/-- A per-document adjustment with no open document: silently dropped. -/
def demoLinesC7a : List String := ["|C197|SP000001|AJUSTE X|Y|10,00|"]

/-- A period-level adjustment with no open document, then a document and a
per-document adjustment referencing its access key. -/
def demoLinesC7b : List String :=
  [ "|E111|SP020100|AJ PERIODO|50,00|"
  , "|C100|0|1|55|00|001|3|0000000005|CHAVEADJ|01012024|10,00|"
  , "|C197|SP000001|AJUSTE X|Y|10,00|"
  ]

/-- One inbound aggregation row with tax1 = 30 for key (X, 01/2024). -/
def c4entry : AggRow :=
  [("CNPJ", AVal.s "X"), ("Competência", AVal.s "01/2024"),
   ("CFOP", AVal.s "1201"), ("Valor ICMS Item", AVal.q 30)]

/-- One outbound aggregation row with tax1 = 50 for the same key. -/
def c4output : AggRow :=
  [("CNPJ", AVal.s "X"), ("Competência", AVal.s "01/2024"),
   ("CFOP", AVal.s "5201"), ("Valor ICMS", AVal.q 50)]

/-- The balance-netting worked example. -/
def c4rec : AggRecord := { entries := [c4entry], outputs := [c4output] }

/-- An item row carrying no state ("UF") column. -/
def c6item : AggRow :=
  [("Competência", AVal.s "01/2024"), ("CFOP", AVal.s "5102"),
   ("Valor Total Item", AVal.q 10)]

/-- Aggregation input whose item rows lack the state column (the outbound
row only makes the engine reach its return statement). -/
def c6rec : AggRecord := { items := [c6item], outputs := [c4output] }

/-- A record with empty entries and outputs but non-empty items,
adjustment and anomaly collections. -/
def c9rec : AggRecord :=
  { items := [c6item]
    adjustments := [[("Tipo Registro", AVal.s "E111")]]
    missing_c190 := [[("Chave", AVal.s "K")]] }

/-- First outbound header of the missing-summary example. -/
def c2line1 : String := "|C100|1|1|55|00|001|1|0000000001|CHAVE1|01012024|100,00|"

/-- Second outbound header of the missing-summary example. -/
def c2line2 : String := "|C100|1|1|55|00|001|2|0000000002|CHAVE2|02012024|200,00|"

/-- The note opened by `c2line1`. -/
def noteL1 : Note :=
  { arquivo := "f", competencia := "", cnpj := "", razao := "", uf := ""
    serie := "1", numero := "0000000001", chave := "CHAVE1", data_emissao := "01012024"
    vl_doc := 100, bc_icms := 0, vl_icms := 0, vl_ipi := 0, tipo_nota := "Saída" }

/-- The note opened by the header of the effective-rate example. -/
def noteC3 : Note :=
  { arquivo := "f", competencia := "", cnpj := "", razao := "", uf := ""
    serie := "1", numero := "0000000004", chave := "CHAVE4", data_emissao := "01012024"
    vl_doc := 1000, bc_icms := 0, vl_icms := 0, vl_ipi := 0, tipo_nota := "Entrada" }

/-- The first item row of the effective-rate example (tax 15 over value
100). -/
def itemC3 : ItemRow :=
  { note := noteC3, num_item := "1", cod_item := "P001", descr := "", cfop := "1102"
    cst_icms := "000", cst_ipi := "50", val_item := 100, bc_icms_item := 100
    aliq_icms_item := 18, vl_icms_item := 15, eff_aliq := 15, aliq_ipi_item := 0
    vl_ipi_item := 0, ncm := "", conformidade := "Conforme" }

/-- The note opened by the header of the adjustment example. -/
def noteC7 : Note :=
  { arquivo := "f", competencia := "", cnpj := "", razao := "", uf := ""
    serie := "3", numero := "0000000005", chave := "CHAVEADJ", data_emissao := "01012024"
    vl_doc := 10, bc_icms := 0, vl_icms := 0, vl_ipi := 0, tipo_nota := "Entrada" }

/-- The balance row the netting produces for the worked example. -/
def c4balRow : AggRow :=
  [("CNPJ", AVal.s "X"), ("Competência", AVal.s "01/2024"),
   ("ICMS a Recuperar (Entradas)", AVal.q 30), ("ICMS a Pagar (Saídas)", AVal.q 50),
   ("Saldo ICMS (Cred - Deb)", AVal.q (-20)), ("IPI a Recuperar (Entradas)", AVal.q 0),
   ("IPI a Pagar (Saídas)", AVal.q 0), ("Saldo IPI (Cred - Deb)", AVal.q 0)]

/-! ## Generic lemmas about the dictionary and grouping helpers -/

theorem mlookup_append {α : Type} (a b : List (String × α)) (k : String) :
    mlookup (a ++ b) k =
      match mlookup a k with
      | some v => some v
      | none => mlookup b k := by
  induction a with
  | nil => simp [mlookup]
  | cons p rest ih =>
      obtain ⟨pk, pv⟩ := p
      by_cases h : pk = k <;> simp [mlookup, h, ih]

theorem mem_dedupFirst {α : Type} [DecidableEq α] (l : List α) (x : α) :
    x ∈ dedupFirst l ↔ x ∈ l := by
  induction l with
  | nil => simp [dedupFirst]
  | cons a rest ih =>
      by_cases h : x = a
      · simp [dedupFirst, h]
      · simp [dedupFirst, h, ih]

theorem mlookup_mkKeyRow_not_mem (cols : List String) (k : List (Option AVal))
    (c : String) (h : c ∉ cols) : mlookup (mkKeyRow cols k) c = none := by
  induction cols generalizing k with
  | nil => simp [mkKeyRow, mlookup]
  | cons a rest ih =>
      cases k with
      | nil => simp [mkKeyRow, mlookup]
      | cons v ks =>
          have ha : a ≠ c := fun e => h (e ▸ List.mem_cons_self a rest)
          have hr : c ∉ rest := fun e => h (List.mem_cons_of_mem a e)
          cases v with
          | none => simpa [mkKeyRow] using ih ks hr
          | some w => simpa [mkKeyRow, mlookup, ha] using ih ks hr

theorem mlookup_map_self {α : Type} (cols : List String) (f : String → α) (c : String)
    (h : c ∈ cols) : mlookup (cols.map (fun n => (n, f n))) c = some (f c) := by
  induction cols with
  | nil => cases h
  | cons a rest ih =>
      by_cases e : a = c
      · subst e; simp [mlookup]
      · have : c ∈ rest := by
          cases h with
          | head => exact absurd rfl e
          | tail _ hm => exact hm
        simp [mlookup, e, ih this]

theorem mlookup_map_not_mem {α : Type} (cols : List String) (f : String → α) (c : String)
    (h : c ∉ cols) : mlookup (cols.map (fun n => (n, f n))) c = none := by
  induction cols with
  | nil => rfl
  | cons a rest ih =>
      have ha : a ≠ c := fun e => h (e ▸ List.mem_cons_self a rest)
      have hr : c ∉ rest := fun e => h (List.mem_cons_of_mem a e)
      simp [mlookup, ha, ih hr]

/-! ## Frame lemmas: what each handler can touch -/

theorem h0000_shape (parts : List String) (st : ParseState) :
    ∃ m, handle0000 parts st = { st with master := m } := by
  simp only [handle0000]
  repeat' first
  | exact ⟨_, rfl⟩
  | split

theorem h0200_shape (parts : List String) (st : ParseState) :
    ∃ nm dm, handle0200 parts st = { st with ncm_map := nm, desc_map := dm } := by
  simp only [handle0200]
  repeat' first
  | exact ⟨_, _, rfl⟩
  | split

set_option maxHeartbeats 1200000 in
theorem hC100_shape (fileName : String) (parts : List String) (st : ParseState) :
    ∃ nt k ie hc miss,
      handleC100 fileName parts st =
        { st with
          current_note := nt
          current_note_key := k
          current_note_is_entry := ie
          current_note_has_c190 := hc
          record := { st.record with missing_c190 := miss } } := by
  cases h : st.current_note with
  | none =>
      simp only [handleC100, h]
      split_ifs <;> exact ⟨_, _, _, _, _, rfl⟩
  | some n =>
      simp only [handleC100, h]
      split_ifs <;> exact ⟨_, _, _, _, _, rfl⟩

theorem hC170_shape (tipi : List (String × ℚ)) (parts : List String) (st : ParseState) :
    ∃ xs es ims,
      handleC170 tipi parts st =
        { st with record := { st.record with items := xs, entries := es, imob_uso := ims } } := by
  cases h : st.current_note with
  | none =>
      simp only [handleC170, h]
      rw [← h]
      exact ⟨_, _, _, rfl⟩
  | some n =>
      simp only [handleC170, h]
      split_ifs <;> first
      | exact ⟨_, _, _, rfl⟩
      | (rw [← h]; exact ⟨_, _, _, rfl⟩)

theorem hC190_shape (parts : List String) (st : ParseState) :
    ∃ hc outs,
      handleC190 parts st =
        { st with
          current_note_has_c190 := hc
          record := { st.record with outputs := outs } } := by
  cases h : st.current_note with
  | none =>
      simp only [handleC190, h]
      rw [← h]
      exact ⟨_, _, rfl⟩
  | some n =>
      simp only [handleC190, h]
      split_ifs <;> first
      | exact ⟨_, _, rfl⟩
      | (rw [← h]; exact ⟨_, _, rfl⟩)

theorem hC195_shape (fileName : String) (parts : List String) (st : ParseState) :
    ∃ adjs, handleC195 fileName parts st =
      { st with record := { st.record with adjustments := adjs } } := by
  cases h : st.current_note with
  | none =>
      simp only [handleC195, h]
      rw [← h]
      exact ⟨_, rfl⟩
  | some n =>
      simp only [handleC195, h]
      split_ifs <;> first
      | exact ⟨_, rfl⟩
      | (rw [← h]; exact ⟨_, rfl⟩)

theorem hC197_shape (fileName : String) (parts : List String) (st : ParseState) :
    ∃ adjs, handleC197 fileName parts st =
      { st with record := { st.record with adjustments := adjs } } := by
  cases h : st.current_note with
  | none =>
      simp only [handleC197, h]
      rw [← h]
      exact ⟨_, rfl⟩
  | some n =>
      simp only [handleC197, add_adjustment, h]
      exact ⟨_, rfl⟩

theorem hE111_shape (fileName : String) (parts : List String) (st : ParseState) :
    ∃ adjs, handleE111 fileName parts st =
      { st with record := { st.record with adjustments := adjs } } := by
  simp only [handleE111, add_adjustment]
  exact ⟨_, rfl⟩

theorem hE115_shape (fileName : String) (parts : List String) (st : ParseState) :
    ∃ adjs, handleE115 fileName parts st =
      { st with record := { st.record with adjustments := adjs } } := by
  simp only [handleE115, add_adjustment]
  exact ⟨_, rfl⟩

theorem hE116_shape (fileName : String) (parts : List String) (st : ParseState) :
    ∃ adjs, handleE116 fileName parts st =
      { st with record := { st.record with adjustments := adjs } } := by
  simp only [handleE116, add_adjustment]
  exact ⟨_, rfl⟩

/-! ## The single-pass invariant -/

theorem mkItem_effOk (tipi : List (String × ℚ)) (nm dm : List (String × String))
    (note : Note) (parts : List String) : itemEffOk (mkItem tipi nm dm note parts) := rfl

theorem mkOut_effOk (note : Note) (parts : List String) : outEffOk (mkOut note parts) := rfl

theorem stInv_init : StInv {} := by
  refine ⟨rfl, ?_, ?_, ?_⟩ <;> intro x hx <;> simp at hx

theorem stInv_h0000 (parts : List String) (st : ParseState) (h : StInv st) :
    StInv (handle0000 parts st) := by
  obtain ⟨m, hm⟩ := h0000_shape parts st
  rw [hm]; exact h

theorem stInv_h0200 (parts : List String) (st : ParseState) (h : StInv st) :
    StInv (handle0200 parts st) := by
  obtain ⟨nm, dm, hm⟩ := h0200_shape parts st
  rw [hm]; exact h

set_option maxHeartbeats 1200000 in
theorem stInv_hC100 (fileName : String) (parts : List String) (st : ParseState) (h : StInv st) :
    StInv (handleC100 fileName parts st) := by
  obtain ⟨hw, hk, hi, ho⟩ := h
  cases hn : st.current_note with
  | none =>
      simp only [handleC100, hn]
      split_ifs <;> refine ⟨hw, ?_, hi, ho⟩ <;> intro n hn2 <;>
        first
        | (injection hn2 with e; subst e; rfl)
        | simp at hn2
  | some n0 =>
      simp only [handleC100, hn]
      split_ifs <;> refine ⟨hw, ?_, hi, ho⟩ <;> intro n hn2 <;>
        first
        | (injection hn2 with e; subst e; rfl)
        | simp at hn2

theorem stInv_hC170 (tipi : List (String × ℚ)) (parts : List String) (st : ParseState)
    (h : StInv st) : StInv (handleC170 tipi parts st) := by
  obtain ⟨hw, hk, hi, ho⟩ := h
  cases hn : st.current_note with
  | none => simp only [handleC170, hn]; exact ⟨hw, hk, hi, ho⟩
  | some n0 =>
      have hkey : ∀ n, some n0 = some n → st.current_note_key = some n.chave := by
        intro n hn2
        injection hn2 with e
        exact e ▸ hk n0 hn
      have hitems : ∀ r ∈ st.record.items ++ [mkItem tipi st.ncm_map st.desc_map n0 parts],
          itemEffOk r := by
        intro r hr
        rcases List.mem_append.mp hr with hr1 | hr2
        · exact hi r hr1
        · rw [List.mem_singleton.mp hr2]; exact mkItem_effOk ..
      simp only [handleC170, hn]
      split_ifs <;>
        refine ⟨hw, ?_, ?_, ho⟩ <;>
        first
        | exact hk
        | exact hkey
        | exact hi
        | exact hitems

theorem stInv_hC190 (parts : List String) (st : ParseState) (h : StInv st) :
    StInv (handleC190 parts st) := by
  obtain ⟨hw, hk, hi, ho⟩ := h
  cases hn : st.current_note with
  | none => simp only [handleC190, hn]; exact ⟨hw, hk, hi, ho⟩
  | some n0 =>
      have hkey : ∀ n, some n0 = some n → st.current_note_key = some n.chave := by
        intro n hn2
        injection hn2 with e
        exact e ▸ hk n0 hn
      have houts : ∀ o ∈ st.record.outputs ++ [mkOut n0 parts], outEffOk o := by
        intro o hr
        rcases List.mem_append.mp hr with hr1 | hr2
        · exact ho o hr1
        · rw [List.mem_singleton.mp hr2]; exact mkOut_effOk ..
      simp only [handleC190, hn]
      split_ifs <;>
        refine ⟨hw, ?_, hi, ?_⟩ <;>
        first
        | exact hk
        | exact hkey
        | exact ho
        | exact houts

theorem stInv_hC195 (fileName : String) (parts : List String) (st : ParseState) (h : StInv st) :
    StInv (handleC195 fileName parts st) := by
  obtain ⟨adjs, hm⟩ := hC195_shape fileName parts st
  rw [hm]; exact h

theorem stInv_hC197 (fileName : String) (parts : List String) (st : ParseState) (h : StInv st) :
    StInv (handleC197 fileName parts st) := by
  obtain ⟨adjs, hm⟩ := hC197_shape fileName parts st
  rw [hm]; exact h

theorem stInv_hE111 (fileName : String) (parts : List String) (st : ParseState) (h : StInv st) :
    StInv (handleE111 fileName parts st) := by
  obtain ⟨adjs, hm⟩ := hE111_shape fileName parts st
  rw [hm]; exact h

theorem stInv_hE115 (fileName : String) (parts : List String) (st : ParseState) (h : StInv st) :
    StInv (handleE115 fileName parts st) := by
  obtain ⟨adjs, hm⟩ := hE115_shape fileName parts st
  rw [hm]; exact h

theorem stInv_hE116 (fileName : String) (parts : List String) (st : ParseState) (h : StInv st) :
    StInv (handleE116 fileName parts st) := by
  obtain ⟨adjs, hm⟩ := hE116_shape fileName parts st
  rw [hm]; exact h

set_option maxHeartbeats 1200000 in
theorem stInv_processLine (fileName : String) (tipi : List (String × ℚ)) (st : ParseState)
    (raw : String) (h : StInv st) : StInv (processLine fileName tipi st raw) := by
  simp only [processLine]
  split_ifs
  · exact h
  · exact stInv_h0000 _ _ h
  · exact stInv_h0200 _ _ h
  · exact stInv_hC100 _ _ _ h
  · exact stInv_hC170 _ _ _ h
  · exact stInv_hC190 _ _ h
  · exact stInv_hC195 _ _ _ h
  · exact stInv_hC197 _ _ _ h
  · exact stInv_hE111 _ _ _ h
  · exact stInv_hE115 _ _ _ h
  · exact stInv_hE116 _ _ _ h
  · exact h

theorem stInv_foldl (fileName : String) (tipi : List (String × ℚ)) (lines : List String) :
    ∀ st : ParseState, StInv st → StInv (lines.foldl (processLine fileName tipi) st) := by
  induction lines with
  | nil => intro st h; exact h
  | cons l rest ih =>
      intro st h
      exact ih _ (stInv_processLine fileName tipi st l h)

theorem stInv_runLines (fileName : String) (tipi : List (String × ℚ)) (lines : List String) :
    StInv (runLines fileName tipi lines) :=
  stInv_foldl fileName tipi lines {} stInv_init

theorem finalize_shape (st : ParseState) :
    ∃ miss, finalize st = { st with record := { st.record with missing_c190 := miss } } := by
  cases h : st.current_note with
  | none =>
      simp only [finalize, h]
      rw [← h]
      exact ⟨_, rfl⟩
  | some n =>
      simp only [finalize, h]
      split_ifs <;> (rw [← h]; exact ⟨_, rfl⟩)

theorem parse_fields (fileName : String) (tipi : List (String × ℚ)) (lines : List String) :
    (parse_sped_lines fileName tipi lines).items = (runLines fileName tipi lines).record.items ∧
    (parse_sped_lines fileName tipi lines).outputs = (runLines fileName tipi lines).record.outputs ∧
    (parse_sped_lines fileName tipi lines).parsing_warnings =
      (runLines fileName tipi lines).record.parsing_warnings ∧
    (parse_sped_lines fileName tipi lines).entries = (runLines fileName tipi lines).record.entries ∧
    (parse_sped_lines fileName tipi lines).adjustments =
      (runLines fileName tipi lines).record.adjustments := by
  obtain ⟨miss, hm⟩ := finalize_shape (runLines fileName tipi lines)
  unfold parse_sped_lines
  rw [hm]
  exact ⟨rfl, rfl, rfl, rfl, rfl⟩

/-! ## Dispatch lemmas -/

theorem tagOf_empty (raw : String) (h : pystrip raw = "") : tagOf raw = "" := by
  unfold tagOf
  rw [h]
  rfl

theorem splitChar_no_sep (l acc : List Char) (h : '|' ∉ l) :
    splitChar '|' l acc = [String.mk (acc.reverse ++ l)] := by
  induction l generalizing acc with
  | nil => simp [splitChar]
  | cons c rest ih =>
      have hc : c ≠ '|' := fun e => h (e ▸ List.mem_cons_self c rest)
      have hr : '|' ∉ rest := fun e => h (List.mem_cons_of_mem c e)
      simp [splitChar, hc, ih _ hr]

theorem tagOf_no_pipe (raw : String) (h : ¬ (pystrip raw).toList.contains '|') :
    tagOf raw = "" := by
  unfold tagOf pysplit
  rw [splitChar_no_sep _ _ (by simpa using h)]
  rfl

theorem tagOf_guards (raw : String) (h : tagOf raw ≠ "") :
    ¬ (pystrip raw = "" ∨ ¬ (pystrip raw).toList.contains '|' = true) := by
  rintro (h1 | h2)
  · exact h (tagOf_empty raw h1)
  · exact h (tagOf_no_pipe raw (by simpa using h2))

theorem processLine_0200 (fileName : String) (tipi : List (String × ℚ)) (st : ParseState)
    (raw : String) (h : tagOf raw = "0200") :
    processLine fileName tipi st raw = handle0200 (pysplit (pystrip raw) '|') st := by
  have hg := tagOf_guards raw (by rw [h]; simp)
  have hA : ¬ pystrip raw = "" := fun e => hg (Or.inl e)
  have hB : (pystrip raw).toList.contains '|' = true := by
    by_contra e
    exact hg (Or.inr (by simpa using e))
  have ht : part (pysplit (pystrip raw) '|') 1 = "0200" := h
  have hB2 : '|' ∈ (pystrip raw).data := by simpa using hB
  simp [processLine, ht, hA, hB2]

theorem processLine_C100 (fileName : String) (tipi : List (String × ℚ)) (st : ParseState)
    (raw : String) (h : tagOf raw = "C100") :
    processLine fileName tipi st raw = handleC100 fileName (pysplit (pystrip raw) '|') st := by
  have hg := tagOf_guards raw (by rw [h]; simp)
  have hA : ¬ pystrip raw = "" := fun e => hg (Or.inl e)
  have hB : (pystrip raw).toList.contains '|' = true := by
    by_contra e
    exact hg (Or.inr (by simpa using e))
  have ht : part (pysplit (pystrip raw) '|') 1 = "C100" := h
  have hB2 : '|' ∈ (pystrip raw).data := by simpa using hB
  simp [processLine, ht, hA, hB2]

theorem processLine_C197 (fileName : String) (tipi : List (String × ℚ)) (st : ParseState)
    (raw : String) (h : tagOf raw = "C197") :
    processLine fileName tipi st raw = handleC197 fileName (pysplit (pystrip raw) '|') st := by
  have hg := tagOf_guards raw (by rw [h]; simp)
  have hA : ¬ pystrip raw = "" := fun e => hg (Or.inl e)
  have hB : (pystrip raw).toList.contains '|' = true := by
    by_contra e
    exact hg (Or.inr (by simpa using e))
  have ht : part (pysplit (pystrip raw) '|') 1 = "C197" := h
  have hB2 : '|' ∈ (pystrip raw).data := by simpa using hB
  simp [processLine, ht, hA, hB2]

theorem processLine_E111 (fileName : String) (tipi : List (String × ℚ)) (st : ParseState)
    (raw : String) (h : tagOf raw = "E111") :
    processLine fileName tipi st raw = handleE111 fileName (pysplit (pystrip raw) '|') st := by
  have hg := tagOf_guards raw (by rw [h]; simp)
  have hA : ¬ pystrip raw = "" := fun e => hg (Or.inl e)
  have hB : (pystrip raw).toList.contains '|' = true := by
    by_contra e
    exact hg (Or.inr (by simpa using e))
  have ht : part (pysplit (pystrip raw) '|') 1 = "E111" := h
  have hB2 : '|' ∈ (pystrip raw).data := by simpa using hB
  simp [processLine, ht, hA, hB2]

theorem processLine_E115 (fileName : String) (tipi : List (String × ℚ)) (st : ParseState)
    (raw : String) (h : tagOf raw = "E115") :
    processLine fileName tipi st raw = handleE115 fileName (pysplit (pystrip raw) '|') st := by
  have hg := tagOf_guards raw (by rw [h]; simp)
  have hA : ¬ pystrip raw = "" := fun e => hg (Or.inl e)
  have hB : (pystrip raw).toList.contains '|' = true := by
    by_contra e
    exact hg (Or.inr (by simpa using e))
  have ht : part (pysplit (pystrip raw) '|') 1 = "E115" := h
  have hB2 : '|' ∈ (pystrip raw).data := by simpa using hB
  simp [processLine, ht, hA, hB2]

theorem processLine_E116 (fileName : String) (tipi : List (String × ℚ)) (st : ParseState)
    (raw : String) (h : tagOf raw = "E116") :
    processLine fileName tipi st raw = handleE116 fileName (pysplit (pystrip raw) '|') st := by
  have hg := tagOf_guards raw (by rw [h]; simp)
  have hA : ¬ pystrip raw = "" := fun e => hg (Or.inl e)
  have hB : (pystrip raw).toList.contains '|' = true := by
    by_contra e
    exact hg (Or.inr (by simpa using e))
  have ht : part (pysplit (pystrip raw) '|') 1 = "E116" := h
  have hB2 : '|' ∈ (pystrip raw).data := by simpa using hB
  simp [processLine, ht, hA, hB2]

set_option maxHeartbeats 1200000 in
theorem processLine_missing_frame (fileName : String) (tipi : List (String × ℚ))
    (st : ParseState) (raw : String) (h : tagOf raw ≠ "C100") :
    (processLine fileName tipi st raw).record.missing_c190 = st.record.missing_c190 := by
  simp only [processLine]
  split_ifs with h1 h2 h3 h4 h5 h6 h7 h8 h9 h10 h11
  · rfl
  · obtain ⟨m, hm⟩ := h0000_shape (pysplit (pystrip raw) '|') st
    rw [hm]
  · obtain ⟨nm, dm, hm⟩ := h0200_shape (pysplit (pystrip raw) '|') st
    rw [hm]
  · exact absurd h4 h
  · obtain ⟨xs, es, ims, hm⟩ := hC170_shape tipi (pysplit (pystrip raw) '|') st
    rw [hm]
  · obtain ⟨hc, outs, hm⟩ := hC190_shape (pysplit (pystrip raw) '|') st
    rw [hm]
  · obtain ⟨adjs, hm⟩ := hC195_shape fileName (pysplit (pystrip raw) '|') st
    rw [hm]
  · obtain ⟨adjs, hm⟩ := hC197_shape fileName (pysplit (pystrip raw) '|') st
    rw [hm]
  · obtain ⟨adjs, hm⟩ := hE111_shape fileName (pysplit (pystrip raw) '|') st
    rw [hm]
  · obtain ⟨adjs, hm⟩ := hE115_shape fileName (pysplit (pystrip raw) '|') st
    rw [hm]
  · obtain ⟨adjs, hm⟩ := hE116_shape fileName (pysplit (pystrip raw) '|') st
    rw [hm]
  · rfl

/-! ## Step lemmas for the missing-summary flush -/

theorem hC100_missing_flush (fileName : String) (parts : List String) (st : ParseState)
    (n : Note) (h1 : st.current_note = some n) (h2 : st.current_note_is_entry = false)
    (h3 : st.current_note_has_c190 = false) :
    (handleC100 fileName parts st).record.missing_c190 = st.record.missing_c190 ++ [n] := by
  simp only [handleC100, h1, h2, h3]
  norm_num
  split_ifs <;> rfl

theorem hC100_missing_noflush (fileName : String) (parts : List String) (st : ParseState)
    (h : st.current_note = none ∨ st.current_note_is_entry = true ∨
      st.current_note_has_c190 = true) :
    (handleC100 fileName parts st).record.missing_c190 = st.record.missing_c190 := by
  rcases h with h | h | h
  · simp only [handleC100, h]
    split_ifs <;> rfl
  · cases hn : st.current_note with
    | none =>
        simp only [handleC100, hn]
        split_ifs <;> rfl
    | some n =>
        simp only [handleC100, hn, h]
        norm_num
        split_ifs <;> rfl
  · cases hn : st.current_note with
    | none =>
        simp only [handleC100, hn]
        split_ifs <;> rfl
    | some n =>
        simp only [handleC100, hn, h]
        norm_num
        split_ifs <;> rfl

theorem finalize_missing_flush (st : ParseState) (n : Note) (h1 : st.current_note = some n)
    (h2 : st.current_note_is_entry = false) (h3 : st.current_note_has_c190 = false) :
    (finalize st).record.missing_c190 = st.record.missing_c190 ++ [n] := by
  simp [finalize, h1, h2, h3]

theorem finalize_missing_noflush (st : ParseState)
    (h : st.current_note = none ∨ st.current_note_is_entry = true ∨
      st.current_note_has_c190 = true) :
    (finalize st).record.missing_c190 = st.record.missing_c190 := by
  rcases h with h | h | h
  · simp [finalize, h]
  · cases hn : st.current_note with
    | none => simp [finalize, hn]
    | some n => simp [finalize, hn, h]
  · cases hn : st.current_note with
    | none => simp [finalize, hn]
    | some n => simp [finalize, hn, h]

/-! ## Step lemmas for the adjustment policy -/

theorem hC197_drop (fileName : String) (parts : List String) (st : ParseState)
    (h : st.current_note = none) : handleC197 fileName parts st = st := by
  simp [handleC197, h]

theorem hC197_append (fileName : String) (parts : List String) (st : ParseState)
    (n : Note) (k : String) (h : st.current_note = some n)
    (hk : st.current_note_key = some k) :
    (handleC197 fileName parts st).record.adjustments = st.record.adjustments ++
      [{ arquivo := fileName
         competencia := st.master.competence
         tipo_registro := "C197"
         codigo_ajuste := pystrip (part parts 2)
         descricao_ajuste := pystrip (part parts 3)
         valor_ajuste := (parts.drop 4).foldl
           (fun acc item => let v := parse_float_br item; if 0 < v then v else acc) 0
         nota := k }] := by
  simp [handleC197, add_adjustment, h, hk]

theorem hE111_append (fileName : String) (parts : List String) (st : ParseState) :
    (handleE111 fileName parts st).record.adjustments = st.record.adjustments ++
      [{ arquivo := fileName
         competencia := st.master.competence
         tipo_registro := "E111"
         codigo_ajuste := pystrip (part parts 2)
         descricao_ajuste := pystrip (part parts 3)
         valor_ajuste := if parts.length > 4 then parse_float_br (part parts 4) else 0
         nota := "" }] := by
  simp [handleE111, add_adjustment]

theorem hE115_append (fileName : String) (parts : List String) (st : ParseState) :
    (handleE115 fileName parts st).record.adjustments = st.record.adjustments ++
      [{ arquivo := fileName
         competencia := st.master.competence
         tipo_registro := "E115"
         codigo_ajuste := pystrip (part parts 2)
         descricao_ajuste := pystrip (part parts 4)
         valor_ajuste := if parts.length > 3 then parse_float_br (part parts 3) else 0
         nota := "" }] := by
  simp [handleE115, add_adjustment]

theorem hE116_append (fileName : String) (parts : List String) (st : ParseState) :
    (handleE116 fileName parts st).record.adjustments = st.record.adjustments ++
      [{ arquivo := fileName
         competencia := st.master.competence
         tipo_registro := "E116"
         codigo_ajuste := if pystrip (part parts 5) ≠ "" then pystrip (part parts 5)
           else pystrip (part parts 2)
         descricao_ajuste := pystrip (pystrip (part parts 2) ++ " " ++ pystrip (part parts 5) ++
           " " ++ pystrip (part parts 9))
         valor_ajuste := if parts.length > 3 then parse_float_br (part parts 3) else 0
         nota := "" }] := by
  simp [handleE116, add_adjustment]

/-! ## Step lemmas for the catalog upsert -/

theorem h0200_ncm_set (parts : List String) (st : ParseState)
    (hcod : pystrip (part parts 2) ≠ "") (hncm : pystrip (part parts 8) ≠ "") :
    mlookup (handle0200 parts st).ncm_map (pystrip (part parts 2)) =
      some (pystrip (part parts 8)) := by
  simp [handle0200, hcod, hncm, mlookup]

theorem h0200_ncm_blank (parts : List String) (st : ParseState)
    (hncm : pystrip (part parts 8) = "") :
    (handle0200 parts st).ncm_map = st.ncm_map := by
  simp [handle0200, hncm]
  split_ifs <;> rfl

theorem h0200_desc_set (parts : List String) (st : ParseState)
    (hcod : pystrip (part parts 2) ≠ "") (hdsc : pystrip (part parts 3) ≠ "") :
    mlookup (handle0200 parts st).desc_map (pystrip (part parts 2)) =
      some (pystrip (part parts 3)) := by
  simp [handle0200, hcod, hdsc, mlookup]

theorem h0200_desc_blank (parts : List String) (st : ParseState)
    (hdsc : pystrip (part parts 3) = "") :
    (handle0200 parts st).desc_map = st.desc_map := by
  simp [handle0200, hdsc]
  split_ifs <;> rfl

theorem h0200_other (parts : List String) (st : ParseState) (c : String)
    (hc : c ≠ pystrip (part parts 2)) :
    mlookup (handle0200 parts st).ncm_map c = mlookup st.ncm_map c ∧
    mlookup (handle0200 parts st).desc_map c = mlookup st.desc_map c := by
  have hc2 : pystrip (part parts 2) ≠ c := fun e => hc e.symm
  simp only [handle0200]
  split_ifs <;> simp [mlookup, hc2]

/-! ## Lemmas about the tax-balance netting -/

theorem groupKeys_shape (rows : List AggRow) (k : List (Option AVal))
    (h : k ∈ groupKeys balanceGroupCols rows) : ∃ x y, k = [x, y] := by
  rw [groupKeys, mem_dedupFirst] at h
  obtain ⟨r, _, e⟩ := List.mem_map.mp h
  exact ⟨mlookup r "CNPJ", mlookup r "Competência", e.symm⟩

theorem balanceKey_groupRow (scols : List String) (h1 : "CNPJ" ∉ scols)
    (h2 : "Competência" ∉ scols) (x y : Option AVal) (rows : List AggRow) :
    balanceKey (groupRow balanceGroupCols [x, y] scols rows) = [x, y] := by
  cases x <;> cases y <;>
    simp [balanceKey, keyOf, groupRow, mkKeyRow, balanceGroupCols, mlookup,
      mlookup_append, mlookup_map_not_mem scols _ "CNPJ" h1,
      mlookup_map_not_mem scols _ "Competência" h2]

theorem getNum_groupRow (gcols scols : List String) (rows : List AggRow)
    (k : List (Option AVal)) (c : String) (h1 : c ∉ gcols) (h2 : c ∈ scols) :
    getNum (groupRow gcols k scols rows) c = sumOver rows gcols k c := by
  simp [getNum, groupRow, mlookup_append, mlookup_mkKeyRow_not_mem gcols k c h1,
    mlookup_map_self scols (fun c => AVal.q (sumOver rows gcols k c)) c h2]

theorem lookupRow_map_keys (rowOf : List (Option AVal) → AggRow)
    (ks : List (List (Option AVal)))
    (hshape : ∀ k' ∈ ks, balanceKey (rowOf k') = k') (k : List (Option AVal)) :
    lookupRow (ks.map rowOf) k = if k ∈ ks then rowOf k else [] := by
  induction ks with
  | nil => simp [lookupRow]
  | cons a rest ih =>
      have ha := hshape a (List.mem_cons_self a rest)
      simp only [List.map_cons, lookupRow, ha]
      by_cases hak : a = k
      · subst hak
        simp
      · have hka : ¬ (k = a) := fun e => hak e.symm
        rw [if_neg hak, ih (fun k' hk' => hshape k' (List.mem_cons_of_mem a hk'))]
        by_cases hk : k ∈ rest <;> simp [hk, hka]

theorem lookupRow_groupBySum (scols : List String) (h1 : "CNPJ" ∉ scols)
    (h2 : "Competência" ∉ scols) (rows : List AggRow) (k : List (Option AVal)) :
    lookupRow (groupBySum balanceGroupCols scols rows) k =
      if k ∈ groupKeys balanceGroupCols rows then groupRow balanceGroupCols k scols rows
      else [] := by
  have hshape : ∀ k' ∈ groupKeys balanceGroupCols rows,
      balanceKey (groupRow balanceGroupCols k' scols rows) = k' := by
    intro k' hk'
    obtain ⟨x, y, e⟩ := groupKeys_shape rows k' hk'
    subst e
    exact balanceKey_groupRow scols h1 h2 x y rows
  unfold groupBySum
  exact lookupRow_map_keys _ _ hshape k

theorem sumOver_not_mem_keys (rows : List AggRow) (k : List (Option AVal)) (c : String)
    (h : k ∉ groupKeys balanceGroupCols rows) :
    sumOver rows balanceGroupCols k c = 0 := by
  unfold sumOver
  have : rows.filter (fun r => decide (keyOf balanceGroupCols r = k)) = [] := by
    rw [List.filter_eq_nil_iff]
    intro r hr hdec
    exact h (by
      rw [groupKeys, mem_dedupFirst]
      exact List.mem_map.mpr ⟨r, hr, by simpa using hdec⟩)
  rw [this]
  rfl

theorem sumOver_dfEmpty (rows : List AggRow) (gcols : List String) (k : List (Option AVal))
    (c : String) (h : dfEmpty rows = true) : sumOver rows gcols k c = 0 := by
  by_cases he : rows = []
  · subst he
    rfl
  · have ha : ∀ r ∈ rows, r = [] := by
      unfold dfEmpty at h
      rcases Bool.or_eq_true_iff.mp h with h1 | h2
      · exact absurd (List.isEmpty_iff.mp h1) he
      · intro r hr
        have hb := List.all_eq_true.mp h2 r hr
        exact List.isEmpty_iff.mp (by simpa using hb)
    apply List.sum_eq_zero
    intro q hq
    obtain ⟨r, hr, e⟩ := List.mem_map.mp hq
    rw [← e, ha r (List.mem_of_mem_filter hr)]
    rfl

theorem balance_rows_spec (cs ds : List AggRow) :
    balance_rows cs ds = (balanceKeysSpec cs ds).map (balanceRowSpec cs ds) := by
  have hshape_side : ∀ (rows : List AggRow) (scols : List String),
      "CNPJ" ∉ scols → "Competência" ∉ scols →
      ∀ k ∈ groupKeys balanceGroupCols rows,
        balanceKey (groupRow balanceGroupCols k scols rows) = k := by
    intro rows scols hs1 hs2 k hk
    obtain ⟨x, y, e⟩ := groupKeys_shape rows k hk
    subst e
    exact balanceKey_groupRow scols hs1 hs2 x y rows
  have hmap : ∀ (rows : List AggRow) (scols : List String),
      "CNPJ" ∉ scols → "Competência" ∉ scols →
      ((if ¬ dfEmpty rows then groupBySum balanceGroupCols scols rows else []).map balanceKey) =
        (if ¬ dfEmpty rows then groupKeys balanceGroupCols rows else []) := by
    intro rows scols hs1 hs2
    split_ifs with hdf
    · rfl
    · unfold groupBySum
      rw [List.map_map]
      calc (groupKeys balanceGroupCols rows).map
            (balanceKey ∘ fun k => groupRow balanceGroupCols k scols rows)
          = (groupKeys balanceGroupCols rows).map id :=
            List.map_congr_left (fun k hk => hshape_side rows scols hs1 hs2 k hk)
        _ = _ := List.map_id _
  have hside : ∀ (rows : List AggRow) (scols : List String),
      "CNPJ" ∉ scols → "Competência" ∉ scols →
      ∀ (k : List (Option AVal)) (c : String), c ∈ scols → c ∉ balanceGroupCols →
      getNum (lookupRow (if ¬ dfEmpty rows then groupBySum balanceGroupCols scols rows else []) k) c
        = sumOver rows balanceGroupCols k c := by
    intro rows scols hs1 hs2 k c hc1 hc2
    split_ifs with hdf
    · rw [sumOver_dfEmpty rows balanceGroupCols k c hdf]
      rfl
    · rw [lookupRow_groupBySum scols hs1 hs2 rows k]
      split_ifs with hmem
      · exact getNum_groupRow _ _ _ _ _ hc2 hc1
      · rw [sumOver_not_mem_keys rows k c hmem]
        rfl
  simp only [balance_rows, balanceKeysSpec]
  rw [hmap cs creditSumCols (by decide) (by decide), hmap ds debitSumCols (by decide) (by decide)]
  refine List.map_congr_left ?_
  intro k hk
  dsimp only
  unfold balanceRowSpec
  rw [hside cs creditSumCols (by decide) (by decide) k "Valor ICMS Item" (by decide) (by decide),
    hside ds debitSumCols (by decide) (by decide) k "Valor ICMS" (by decide) (by decide),
    hside cs creditSumCols (by decide) (by decide) k "Valor IPI Item" (by decide) (by decide),
    hside ds debitSumCols (by decide) (by decide) k "Valor IPI Nota" (by decide) (by decide)]

theorem netPayable_max (r : AggRow) :
    netPayable r = max 0
      ((getNum r "ICMS a Pagar (Saídas)" - getNum r "ICMS a Recuperar (Entradas)") +
       (getNum r "IPI a Pagar (Saídas)" - getNum r "IPI a Recuperar (Entradas)")) := by
  unfold netPayable
  rcases le_or_lt ((getNum r "ICMS a Pagar (Saídas)" - getNum r "ICMS a Recuperar (Entradas)") +
      (getNum r "IPI a Pagar (Saídas)" - getNum r "IPI a Recuperar (Entradas)")) 0 with hle | hlt
  · rw [if_neg (not_lt.mpr hle), max_eq_left hle]
  · rw [if_pos hlt, max_eq_right hlt.le]

/-! ## Lemmas about the state summary and the empty-input aggregation -/

theorem hasCol_false_of_none (rows : List AggRow) (c : String)
    (h : ∀ r ∈ rows, mlookup r c = none) : hasCol rows c = false := by
  unfold hasCol
  rw [List.any_eq_false]
  intro r hr
  simp [h r hr]

theorem ufCfopSheet_noUF (dfi : List AggRow) (h : ∀ r ∈ dfi, mlookup r "UF" = none) :
    ufCfopSheet dfi =
      optSheet
        ((["Competência", "CNPJ", "Razão Social", "CFOP"].filter (fun c => hasCol dfi c)) ≠ [])
        "Resumo UF-CFOP"
        (renameCols itemsRenameMap (groupBySum
          (["Competência", "CNPJ", "Razão Social", "CFOP"].filter (fun c => hasCol dfi c))
          (itemsNumericCols.filter (fun c => hasCol dfi c)) dfi)) := by
  have hUF : hasCol dfi "UF" = false := hasCol_false_of_none dfi "UF" h
  unfold ufCfopSheet
  have hf : (["Competência", "CNPJ", "Razão Social", "UF", "CFOP"].filter
      (fun c => hasCol dfi c)) =
      (["Competência", "CNPJ", "Razão Social", "CFOP"].filter (fun c => hasCol dfi c)) := by
    simp [List.filter_cons, hUF]
  rw [hf]

theorem flatten_nil_of_all_nil {α β : Type} (records : List α) (f : α → List β)
    (h : ∀ r ∈ records, f r = []) : (records.map f).flatten = [] := by
  induction records with
  | nil => rfl
  | cons a rest ih =>
      simp only [List.map_cons, List.flatten_cons, h a (List.mem_cons_self a rest),
        List.nil_append]
      exact ih (fun r hr => h r (List.mem_cons_of_mem a hr))

/-! ## Claim theorems -/

/-- C1: For every C170 item line processed while a document is open, the
rate-table conformity verdict follows the exact decision chain of the
source: "Conforme" for a zero declared rate; "TIPI não carregada" when no
rate table was supplied; "NCM não encontrado" when the catalog has no
classification; "NCM não encontrado na TIPI" when the classification is
not a key of the table; "Conforme" when the declared rate is within 0.001
of the table value, else a "Divergente" verdict embedding the table value
formatted to two decimals.  With catalog P001 → 12345678, table
{12345678 ↦ 10}, declared rate 10 yields "Conforme" and declared rate 7
yields "Divergente (TIPI: 10.00%)". -/
theorem tipi_conformity_decision_chain :
    (∀ (tipi : List (String × ℚ)) (ncm : String) (a : ℚ),
      (a = 0 → ipi_conformity tipi ncm a = "Conforme") ∧
      (a ≠ 0 → tipi = [] → ipi_conformity tipi ncm a = "TIPI não carregada") ∧
      (a ≠ 0 → tipi ≠ [] → ncm = "" → ipi_conformity tipi ncm a = "NCM não encontrado") ∧
      (a ≠ 0 → tipi ≠ [] → ncm ≠ "" → mlookup tipi ncm = none →
        ipi_conformity tipi ncm a = "NCM não encontrado na TIPI") ∧
      (∀ e, a ≠ 0 → tipi ≠ [] → ncm ≠ "" → mlookup tipi ncm = some e → |a - e| < 1/1000 →
        ipi_conformity tipi ncm a = "Conforme") ∧
      (∀ e, a ≠ 0 → tipi ≠ [] → ncm ≠ "" → mlookup tipi ncm = some e →
        ¬ (|a - e| < 1/1000) →
        ipi_conformity tipi ncm a = "Divergente (TIPI: " ++ fmt2 e ++ "%)")) ∧
    (parse_sped_lines "f" tipiDemo demoLinesC1).items.map (fun r => r.conformidade) =
      ["Conforme", "Divergente (TIPI: 10.00%)"] ∧
    fmt2 10 = "10.00" := by
  refine ⟨?_, by decide, by decide⟩
  intro tipi ncm a
  have hte : tipi ≠ [] → tipi.isEmpty = false := by
    intro h2
    cases tipi with
    | nil => exact absurd rfl h2
    | cons x xs => rfl
  refine ⟨?_, ?_, ?_, ?_, ?_, ?_⟩
  · intro h
    simp [ipi_conformity, h]
  · intro h1 h2
    subst h2
    simp [ipi_conformity, h1]
  · intro h1 h2 h3
    simp [ipi_conformity, h1, hte h2, h3]
  · intro h1 h2 h3 h4
    simp [ipi_conformity, h1, hte h2, h3, h4]
  · intro e h1 h2 h3 h4 h5
    unfold ipi_conformity
    rw [if_neg h1, if_neg (by simp [hte h2]), if_neg h3, h4]
    exact if_pos h5
  · intro e h1 h2 h3 h4 h5
    unfold ipi_conformity
    rw [if_neg h1, if_neg (by simp [hte h2]), if_neg h3, h4]
    exact if_neg h5

/-- Witness for C1: the no-table and the divergent branch at concrete
inputs. -/
theorem tipi_conformity_decision_chain_witness :
    ipi_conformity [] "12345678" 5 = "TIPI não carregada" ∧
    ipi_conformity tipiDemo "12345678" 7 = "Divergente (TIPI: 10.00%)" := by
  constructor
  · exact (tipi_conformity_decision_chain.1 [] "12345678" 5).2.1 (by norm_num) rfl
  · have h := (tipi_conformity_decision_chain.1 tipiDemo "12345678" 7).2.2.2.2.2 10
      (by norm_num) (by decide) (by decide) (by decide) (by decide)
    rw [h]
    decide

/-- C2: An outbound document closed by the next C100 header, or by end of
input, without a C190 summary contributes exactly one missing-summary
anomaly row (its note); a document that received its summary, or an
inbound or absent document, contributes none, and no other register
touches the missing-summary collection.  On the worked input the first
document's note is the single anomaly and the second, summarized document
produces none. -/
theorem missing_summary_anomaly :
    (∀ (fn : String) (tipi : List (String × ℚ)) (st : ParseState) (raw : String) (n : Note),
      tagOf raw = "C100" → st.current_note = some n → st.current_note_is_entry = false →
      st.current_note_has_c190 = false →
      (processLine fn tipi st raw).record.missing_c190 = st.record.missing_c190 ++ [n]) ∧
    (∀ (fn : String) (tipi : List (String × ℚ)) (st : ParseState) (raw : String),
      tagOf raw = "C100" →
      (st.current_note = none ∨ st.current_note_is_entry = true ∨
        st.current_note_has_c190 = true) →
      (processLine fn tipi st raw).record.missing_c190 = st.record.missing_c190) ∧
    (∀ (fn : String) (tipi : List (String × ℚ)) (st : ParseState) (raw : String),
      tagOf raw ≠ "C100" →
      (processLine fn tipi st raw).record.missing_c190 = st.record.missing_c190) ∧
    (∀ (st : ParseState) (n : Note), st.current_note = some n →
      st.current_note_is_entry = false → st.current_note_has_c190 = false →
      (finalize st).record.missing_c190 = st.record.missing_c190 ++ [n]) ∧
    (∀ st : ParseState,
      (st.current_note = none ∨ st.current_note_is_entry = true ∨
        st.current_note_has_c190 = true) →
      (finalize st).record.missing_c190 = st.record.missing_c190) ∧
    (parse_sped_lines "f" [] demoLinesC2).missing_c190.map (fun x => x.chave) = ["CHAVE1"] ∧
    (parse_sped_lines "f" [] demoLinesC2).outputs.map (fun o => o.note.chave) = ["CHAVE2"] := by
  refine ⟨?_, ?_, ?_, ?_, ?_, by decide, by decide⟩
  · intro fn tipi st raw n ht h1 h2 h3
    rw [processLine_C100 fn tipi st raw ht]
    exact hC100_missing_flush fn _ st n h1 h2 h3
  · intro fn tipi st raw ht h
    rw [processLine_C100 fn tipi st raw ht]
    exact hC100_missing_noflush fn _ st h
  · intro fn tipi st raw h
    exact processLine_missing_frame fn tipi st raw h
  · intro st n h1 h2 h3
    exact finalize_missing_flush st n h1 h2 h3
  · intro st h
    exact finalize_missing_noflush st h

/-- Witness for C2: the second header flushes exactly the first document's
note. -/
theorem missing_summary_anomaly_witness :
    (processLine "f" [] (runLines "f" [] [c2line1]) c2line2).record.missing_c190 =
      (runLines "f" [] [c2line1]).record.missing_c190 ++ [noteL1] :=
  missing_summary_anomaly.1 "f" [] (runLines "f" [] [c2line1]) c2line2 noteL1
    (by decide) (by decide) (by decide) (by decide)

/-- C3: Every emitted item row derives its effective rate as tax over item
value times 100 when the value is positive and 0 when the value is zero;
every emitted output summary row derives it as tax over tax base times
100 when the base is positive and 0 when the base is zero.  An item with
tax 15 and value 100 yields 15; a zero-value item yields 0 (totality of
the embedding stands in for "no division error"). -/
theorem effective_rate_derivation :
    (∀ (fn : String) (tipi : List (String × ℚ)) (lines : List String) (r : ItemRow),
      r ∈ (parse_sped_lines fn tipi lines).items →
      (0 < r.val_item → r.eff_aliq = r.vl_icms_item / r.val_item * 100) ∧
      (r.val_item = 0 → r.eff_aliq = 0)) ∧
    (∀ (fn : String) (tipi : List (String × ℚ)) (lines : List String) (o : OutputRow),
      o ∈ (parse_sped_lines fn tipi lines).outputs →
      (0 < o.bc_icms → o.eff_aliq = o.vl_icms / o.bc_icms * 100) ∧
      (o.bc_icms = 0 → o.eff_aliq = 0)) ∧
    (parse_sped_lines "f" [] demoLinesC3).items.map
      (fun r => (r.val_item, r.vl_icms_item, r.eff_aliq)) = [(100, 15, 15), (0, 5, 0)] := by
  refine ⟨?_, ?_, by decide⟩
  · intro fn tipi lines r hr
    rw [(parse_fields fn tipi lines).1] at hr
    have heff := (stInv_runLines fn tipi lines).2.2.1 r hr
    unfold itemEffOk at heff
    refine ⟨fun hv => ?_, fun hv => ?_⟩
    · rw [heff, if_pos hv]
    · rw [heff, if_neg (by rw [hv]; exact lt_irrefl 0)]
  · intro fn tipi lines o ho
    rw [(parse_fields fn tipi lines).2.1] at ho
    have heff := (stInv_runLines fn tipi lines).2.2.2 o ho
    unfold outEffOk at heff
    refine ⟨fun hv => ?_, fun hv => ?_⟩
    · rw [heff, if_pos hv]
    · rw [heff, if_neg (by rw [hv]; exact lt_irrefl 0)]

/-- Witness for C3: the 15-over-100 item of the worked input. -/
theorem effective_rate_derivation_witness :
    itemC3.eff_aliq = itemC3.vl_icms_item / itemC3.val_item * 100 :=
  (effective_rate_derivation.1 "f" [] demoLinesC3 itemC3 (by decide)).1 (by decide)

/-- C4: The tax-balance netting groups each side by {CNPJ, Competência}
and sums it, outer-joins the two sides on that key with a missing side
read as zero, and each balance row carries the recoverable sum, the
payable sum and the signed difference recoverable minus payable for both
taxes; the derived net payable of a balance row is
max(0, (ICMS payable − ICMS recoverable) + (IPI payable − IPI
recoverable)).  One inbound row with tax 30 and one outbound row with tax
50 on the same key yield 30, 50, −20 and clamped net payable 20. -/
theorem tax_balance_netting :
    (∀ cs ds : List AggRow,
      balance_rows cs ds = (balanceKeysSpec cs ds).map (balanceRowSpec cs ds)) ∧
    (∀ (cs ds : List AggRow) (k : List (Option AVal)),
      getNum (balanceRowSpec cs ds k) "ICMS a Recuperar (Entradas)" =
        sumOver cs balanceGroupCols k "Valor ICMS Item" ∧
      getNum (balanceRowSpec cs ds k) "ICMS a Pagar (Saídas)" =
        sumOver ds balanceGroupCols k "Valor ICMS" ∧
      getNum (balanceRowSpec cs ds k) "IPI a Recuperar (Entradas)" =
        sumOver cs balanceGroupCols k "Valor IPI Item" ∧
      getNum (balanceRowSpec cs ds k) "IPI a Pagar (Saídas)" =
        sumOver ds balanceGroupCols k "Valor IPI Nota" ∧
      getNum (balanceRowSpec cs ds k) "Saldo ICMS (Cred - Deb)" =
        getNum (balanceRowSpec cs ds k) "ICMS a Recuperar (Entradas)" -
          getNum (balanceRowSpec cs ds k) "ICMS a Pagar (Saídas)" ∧
      getNum (balanceRowSpec cs ds k) "Saldo IPI (Cred - Deb)" =
        getNum (balanceRowSpec cs ds k) "IPI a Recuperar (Entradas)" -
          getNum (balanceRowSpec cs ds k) "IPI a Pagar (Saídas)") ∧
    (∀ r : AggRow, netPayable r = max 0
      ((getNum r "ICMS a Pagar (Saídas)" - getNum r "ICMS a Recuperar (Entradas)") +
       (getNum r "IPI a Pagar (Saídas)" - getNum r "IPI a Recuperar (Entradas)"))) ∧
    mlookup ((aggregate_records [c4rec]).getD []) "Saldo Impostos" = some [c4balRow] ∧
    getNum c4balRow "ICMS a Recuperar (Entradas)" = 30 ∧
    getNum c4balRow "ICMS a Pagar (Saídas)" = 50 ∧
    getNum c4balRow "Saldo ICMS (Cred - Deb)" = -20 ∧
    netPayable c4balRow = 20 := by
  refine ⟨balance_rows_spec, ?_, netPayable_max, by decide, by decide, by decide, by decide,
    by decide⟩
  intro cs ds k
  refine ⟨?_, ?_, ?_, ?_, ?_, ?_⟩ <;>
    simp [balanceRowSpec, getNum, mlookup_append, mlookup,
      mlookup_mkKeyRow_not_mem balanceGroupCols k "ICMS a Recuperar (Entradas)" (by decide),
      mlookup_mkKeyRow_not_mem balanceGroupCols k "ICMS a Pagar (Saídas)" (by decide),
      mlookup_mkKeyRow_not_mem balanceGroupCols k "Saldo ICMS (Cred - Deb)" (by decide),
      mlookup_mkKeyRow_not_mem balanceGroupCols k "IPI a Recuperar (Entradas)" (by decide),
      mlookup_mkKeyRow_not_mem balanceGroupCols k "IPI a Pagar (Saídas)" (by decide),
      mlookup_mkKeyRow_not_mem balanceGroupCols k "Saldo IPI (Cred - Deb)" (by decide)]

/-- C5: The single-file parse never raises: a file-level failure while
acquiring the line sequence yields a result whose only content is one
warning naming the file, with every row collection empty; a successfully
acquired line sequence is processed by the total single pass, which never
produces warnings. -/
theorem file_error_containment :
    (∀ (fn : String) (tipi : List (String × ℚ)) (e : String),
      parse_sped_file fn tipi (Except.error e) =
        { parsing_warnings := ["Erro ao processar " ++ fn ++ ": " ++ e] }) ∧
    (∀ (fn : String) (tipi : List (String × ℚ)) (e : String),
      (parse_sped_file fn tipi (Except.error e)).entries = [] ∧
      (parse_sped_file fn tipi (Except.error e)).outputs = [] ∧
      (parse_sped_file fn tipi (Except.error e)).items = [] ∧
      (parse_sped_file fn tipi (Except.error e)).imob_uso = [] ∧
      (parse_sped_file fn tipi (Except.error e)).adjustments = [] ∧
      (parse_sped_file fn tipi (Except.error e)).missing_c190 = []) ∧
    (∀ (fn : String) (tipi : List (String × ℚ)) (lines : List String),
      parse_sped_file fn tipi (Except.ok lines) = parse_sped_lines fn tipi lines) ∧
    (∀ (fn : String) (tipi : List (String × ℚ)) (lines : List String),
      (parse_sped_lines fn tipi lines).parsing_warnings = []) := by
  refine ⟨fun fn tipi e => rfl, fun fn tipi e => ⟨rfl, rfl, rfl, rfl, rfl, rfl⟩,
    fun fn tipi lines => rfl, ?_⟩
  intro fn tipi lines
  obtain ⟨miss, hm⟩ := finalize_shape (runLines fn tipi lines)
  unfold parse_sped_lines
  rw [hm]
  exact (stInv_runLines fn tipi lines).1

/-- C6 counterexample: on an input whose item rows lack the "UF" column
(and whose outputs are non-empty so the engine reaches its return), the
state summary sheet "Resumo UF-CFOP" is present in the returned set, so
it is not omitted as the claim states. -/
theorem state_summary_not_omitted_cex :
    c6rec.items.all (fun r => (mlookup r "UF").isNone) = true ∧
    (aggregate_records [c6rec]).isSome = true ∧
    (mlookup ((aggregate_records [c6rec]).getD []) "Resumo UF-CFOP").isSome = true := by
  refine ⟨by decide, by decide, by decide⟩

/-- C6 (amended): an aggregation input whose item rows lack the "UF"
column raises no error; the "UF" grouping key is simply dropped, the
state summary being produced grouped by the remaining present candidate
columns, and the sheet is omitted only when no candidate column is
present.  On the worked input the sheet is grouped by Competência and
CFOP and none of its rows carries a "UF" column. -/
theorem state_summary_grouping_amended :
    (∀ dfi : List AggRow, (∀ r ∈ dfi, mlookup r "UF" = none) →
      ufCfopSheet dfi =
        optSheet
          ((["Competência", "CNPJ", "Razão Social", "CFOP"].filter
            (fun c => hasCol dfi c)) ≠ [])
          "Resumo UF-CFOP"
          (renameCols itemsRenameMap (groupBySum
            (["Competência", "CNPJ", "Razão Social", "CFOP"].filter (fun c => hasCol dfi c))
            (itemsNumericCols.filter (fun c => hasCol dfi c)) dfi))) ∧
    mlookup ((aggregate_records [c6rec]).getD []) "Resumo UF-CFOP" =
      some [[("Competência", AVal.s "01/2024"), ("CFOP", AVal.s "5102"),
             ("Valor Contábil", AVal.q 10)]] ∧
    (((mlookup ((aggregate_records [c6rec]).getD []) "Resumo UF-CFOP").getD []).all
      (fun r => (mlookup r "UF").isNone)) = true := by
  refine ⟨ufCfopSheet_noUF, by decide, by decide⟩

/-- Witness for the amended C6: the worked item frame without a "UF"
column. -/
theorem state_summary_grouping_amended_witness :
    ufCfopSheet [c6item] =
      optSheet
        ((["Competência", "CNPJ", "Razão Social", "CFOP"].filter
          (fun c => hasCol [c6item] c)) ≠ [])
        "Resumo UF-CFOP"
        (renameCols itemsRenameMap (groupBySum
          (["Competência", "CNPJ", "Razão Social", "CFOP"].filter (fun c => hasCol [c6item] c))
          (itemsNumericCols.filter (fun c => hasCol [c6item] c)) [c6item])) :=
  state_summary_grouping_amended.1 [c6item] (by decide)

/-- C7: A per-document adjustment record (C197) with no open document
leaves the state unchanged (silently dropped); with an open document it
appends one adjustment carrying the tracked access key, which the pass
keeps equal to the open note's key; the period-level registers E111, E115
and E116 always append one adjustment (with an empty document reference)
regardless of document context. -/
theorem adjustment_context_policy :
    (∀ (fn : String) (tipi : List (String × ℚ)) (st : ParseState) (raw : String),
      tagOf raw = "C197" → st.current_note = none → processLine fn tipi st raw = st) ∧
    (∀ (fn : String) (tipi : List (String × ℚ)) (st : ParseState) (raw : String)
      (n : Note) (k : String),
      tagOf raw = "C197" → st.current_note = some n → st.current_note_key = some k →
      ∃ adj, (processLine fn tipi st raw).record.adjustments =
          st.record.adjustments ++ [adj] ∧ adj.tipo_registro = "C197" ∧ adj.nota = k) ∧
    (∀ (fn : String) (tipi : List (String × ℚ)) (lines : List String) (n : Note),
      (runLines fn tipi lines).current_note = some n →
      (runLines fn tipi lines).current_note_key = some n.chave) ∧
    (∀ (fn : String) (tipi : List (String × ℚ)) (st : ParseState) (raw : String),
      tagOf raw = "E111" ∨ tagOf raw = "E115" ∨ tagOf raw = "E116" →
      ∃ adj, (processLine fn tipi st raw).record.adjustments =
          st.record.adjustments ++ [adj] ∧ adj.tipo_registro = tagOf raw ∧ adj.nota = "") ∧
    (parse_sped_lines "f" [] demoLinesC7a).adjustments = [] ∧
    (parse_sped_lines "f" [] demoLinesC7b).adjustments.map (fun a => (a.tipo_registro, a.nota)) =
      [("E111", ""), ("C197", "CHAVEADJ")] := by
  refine ⟨?_, ?_, ?_, ?_, by decide, by decide⟩
  · intro fn tipi st raw ht h
    rw [processLine_C197 fn tipi st raw ht]
    exact hC197_drop fn _ st h
  · intro fn tipi st raw n k ht h hk
    rw [processLine_C197 fn tipi st raw ht]
    exact ⟨_, hC197_append fn _ st n k h hk, rfl, rfl⟩
  · intro fn tipi lines n h
    exact (stInv_runLines fn tipi lines).2.1 n h
  · intro fn tipi st raw h
    rcases h with h | h | h
    · rw [processLine_E111 fn tipi st raw h, h]
      exact ⟨_, hE111_append fn _ st, rfl, rfl⟩
    · rw [processLine_E115 fn tipi st raw h, h]
      exact ⟨_, hE115_append fn _ st, rfl, rfl⟩
    · rw [processLine_E116 fn tipi st raw h, h]
      exact ⟨_, hE116_append fn _ st, rfl, rfl⟩

/-- Witness for C7: a C197 with no open document is dropped, and after
the worked header the tracked key is the open note's access key. -/
theorem adjustment_context_policy_witness :
    processLine "f" [] {} "|C197|SP000001|AJUSTE X|Y|10,00|" = {} ∧
    (runLines "f" [] (demoLinesC7b.take 2)).current_note_key = some noteC7.chave := by
  constructor
  · exact adjustment_context_policy.1 "f" [] {} "|C197|SP000001|AJUSTE X|Y|10,00|"
      (by decide) rfl
  · exact adjustment_context_policy.2.2.1 "f" [] (demoLinesC7b.take 2) noteC7 (by decide)

/-- C8: A catalog (0200) record upserts the product maps per field: a
non-blank classification overwrites the stored classification for the
record's product code and a non-blank description overwrites the stored
description, a blank (or absent, hence blank after extraction) value
leaves the corresponding map unchanged, and entries of other product
codes are never affected; the handler is total, so no error is raised. -/
theorem catalog_upsert_frame :
    (∀ (fn : String) (tipi : List (String × ℚ)) (st : ParseState) (raw : String),
      tagOf raw = "0200" →
      processLine fn tipi st raw = handle0200 (pysplit (pystrip raw) '|') st) ∧
    (∀ (parts : List String) (st : ParseState),
      pystrip (part parts 2) ≠ "" → pystrip (part parts 8) ≠ "" →
      mlookup (handle0200 parts st).ncm_map (pystrip (part parts 2)) =
        some (pystrip (part parts 8))) ∧
    (∀ (parts : List String) (st : ParseState),
      pystrip (part parts 8) = "" → (handle0200 parts st).ncm_map = st.ncm_map) ∧
    (∀ (parts : List String) (st : ParseState),
      pystrip (part parts 2) ≠ "" → pystrip (part parts 3) ≠ "" →
      mlookup (handle0200 parts st).desc_map (pystrip (part parts 2)) =
        some (pystrip (part parts 3))) ∧
    (∀ (parts : List String) (st : ParseState),
      pystrip (part parts 3) = "" → (handle0200 parts st).desc_map = st.desc_map) ∧
    (∀ (parts : List String) (st : ParseState) (c : String),
      c ≠ pystrip (part parts 2) →
      mlookup (handle0200 parts st).ncm_map c = mlookup st.ncm_map c ∧
      mlookup (handle0200 parts st).desc_map c = mlookup st.desc_map c) :=
  ⟨fun fn tipi st raw h => processLine_0200 fn tipi st raw h,
   h0200_ncm_set, h0200_ncm_blank, h0200_desc_set, h0200_desc_blank, h0200_other⟩

/-- Witness for C8: the worked catalog record stores 12345678 under
P001. -/
theorem catalog_upsert_frame_witness :
    mlookup (handle0200 (pysplit "|0200|P001|PRODUTO TESTE|789|X|UN|00|12345678|" '|')
        {}).ncm_map
      (pystrip (part (pysplit "|0200|P001|PRODUTO TESTE|789|X|UN|00|12345678|" '|') 2)) =
      some (pystrip (part (pysplit "|0200|P001|PRODUTO TESTE|789|X|UN|00|12345678|" '|') 8)) :=
  catalog_upsert_frame.2.1 (pysplit "|0200|P001|PRODUTO TESTE|789|X|UN|00|12345678|" '|') {}
    (by decide) (by decide)

/-- C9: When every record handed to the aggregation has empty entries and
outputs collections, the function returns no table dictionary at all,
because its only return statement is nested inside the branch requiring
non-empty entries or outputs. -/
theorem aggregate_none_on_empty_entries_outputs :
    ∀ records : List AggRecord, (∀ r ∈ records, r.entries = [] ∧ r.outputs = []) →
      aggregate_records records = none := by
  intro records h
  have he : (records.map (fun r => r.entries)).flatten = [] :=
    flatten_nil_of_all_nil records _ (fun r hr => (h r hr).1)
  have ho : (records.map (fun r => r.outputs)).flatten = [] :=
    flatten_nil_of_all_nil records _ (fun r hr => (h r hr).2)
  simp only [aggregate_records, he, ho]
  rw [if_neg (by simp [dfEmpty])]

/-- Witness for C9: a record with non-empty items, adjustment and anomaly
collections but empty entries and outputs yields no output. -/
theorem aggregate_none_on_empty_entries_outputs_witness :
    aggregate_records [c9rec] = none :=
  aggregate_none_on_empty_entries_outputs [c9rec] (by decide)

/-- C10: The Brazilian-number parser is a total function (the embedding
returns a rational for every string) yielding 0 for empty, blank or
unparseable input; it removes every dot before converting and treats the
comma as the decimal separator, so "1.5" parses as 15, not 1.5, while
"1.234,56" parses as 1234.56. -/
theorem float_br_parsing :
    parse_float_br "" = 0 ∧
    parse_float_br "   " = 0 ∧
    parse_float_br "abc" = 0 ∧
    parse_float_br "1.5" = 15 ∧
    parse_float_br "1.5" ≠ 3/2 ∧
    parse_float_br "1.234,56" = 123456 / 100 ∧
    (∀ s : String, pyParseFloat (replaceChar ',' '.' (removeChar '.' (pystrip s))) = none →
      parse_float_br s = 0) := by
  refine ⟨by decide, by decide, by decide, by decide, by decide, by decide, ?_⟩
  intro s h
  simp only [parse_float_br]
  split_ifs
  · rfl
  · rfl
  · rw [h]

/-- Witness for C10: an unparseable string yields 0. -/
theorem float_br_parsing_witness : parse_float_br "x,y" = 0 :=
  float_br_parsing.2.2.2.2.2.2 "x,y" (by decide)

end Sped
